import Mathlib

/-!
Verification development for the MVF v3 parser of the MappedIn QGIS plugin
(src/mvf_parser_v3.py).  The Python code is shallowly embedded: JSON values
are an inductive type, Python dynamic-typing failures (AttributeError,
TypeError, KeyError, ...) are modelled as an Except-String monad, and the
QGIS geometry objects are modelled by a small inductive carrying exactly the
structure the parser inspects (geometry type tag and coordinates).
-/

set_option maxHeartbeats 1600000

namespace MVF

/-- Values produced by json.load: null, booleans, numbers, strings, arrays
and objects (ordered key/value association lists, as Python dicts preserve
insertion order).  JSON numbers are modelled as integers: the parser never
computes with them, it only moves them around. -/
inductive JValue where
  | null
  | bool (b : Bool)
  | num (n : Int)
  | str (s : String)
  | arr (elems : List JValue)
  | obj (fields : List (String × JValue))

instance : Inhabited JValue := ⟨JValue.null⟩

/-- Truthiness of a Python value (None, False, 0, empty string, empty list
and empty dict are falsy). -/
def JValue.isFalsy : JValue → Bool
  | .null => true
  | .bool b => !b
  | .num n => n == 0
  | .str s => s == ""
  | .arr xs => xs.isEmpty
  | .obj fs => fs.isEmpty

/-- Lookup of a string key in an object field list (first match, like a
Python dict whose keys are unique). -/
def jLookup (fs : List (String × JValue)) (k : String) : Option JValue :=
  (fs.find? (fun p => p.1 == k)).map (fun p => p.2)

/-- Substring test: does hay contain needle?  Models the Python expression
needle in hay for strings. -/
def containsSub (hay needle : String) : Bool :=
  hay.toList.tails.any (fun t => needle.toList.isPrefixOf t)

/-- Python membership test k in v for a string k.  On dicts it tests key
membership, on lists equality with the elements, on strings the substring
relation; on any other value it raises TypeError. -/
def pyContains : JValue → String → Except String Bool
  | .obj fs, k => .ok (fs.any (fun p => p.1 == k))
  | .arr xs, k => .ok (xs.any (fun x => match x with | .str s => s == k | _ => false))
  | .str s, k => .ok (containsSub s k)
  | _, _ => .error "TypeError: argument of type is not iterable"

/-- Python v.get(k, default): defined on dicts only, AttributeError
otherwise. -/
def pyGet : JValue → String → JValue → Except String JValue
  | .obj fs, k, d => .ok ((jLookup fs k).getD d)
  | _, _, _ => .error "AttributeError: no attribute get"

/-- Python v.get(key, default) where the key itself is a Python value (used
for the kinds lookup keyed by the raw id value).  Unhashable keys (lists,
dicts) raise; JSON object keys are strings, so any non-string hashable key
simply misses. -/
def pyGetKeyJ : JValue → JValue → JValue → Except String JValue
  | .obj fs, .str s, d => .ok ((jLookup fs s).getD d)
  | .obj _, .arr _, _ => .error "TypeError: unhashable type"
  | .obj _, .obj _, _ => .error "TypeError: unhashable type"
  | .obj _, _, d => .ok d
  | _, _, _ => .error "AttributeError: no attribute get"

/-- Python len(v): defined on lists, dicts and strings. -/
def pyLen : JValue → Except String Nat
  | .arr xs => .ok xs.length
  | .obj fs => .ok fs.length
  | .str s => .ok s.length
  | _ => .error "TypeError: object has no len"

/-- Python iteration over v: lists yield elements, dicts their keys,
strings their one-character substrings; other values raise TypeError. -/
def pyIter : JValue → Except String (List JValue)
  | .arr xs => .ok xs
  | .obj fs => .ok (fs.map (fun p => JValue.str p.1))
  | .str s => .ok (s.toList.map (fun c => JValue.str (String.mk [c])))
  | _ => .error "TypeError: object is not iterable"

/-- Python v[i] for an integer index i: lists and strings only (an integer
subscript on a dict holding string keys raises KeyError). -/
def pyIndexNat : JValue → Nat → Except String JValue
  | .arr xs, i =>
      match xs[i]? with
      | some x => .ok x
      | none => .error "IndexError: list index out of range"
  | .str s, i =>
      match s.toList[i]? with
      | some c => .ok (.str (String.mk [c]))
      | none => .error "IndexError: string index out of range"
  | .obj _, _ => .error "KeyError: integer key"
  | _, _ => .error "TypeError: object is not subscriptable"

/-- Python v[k] for a string key k: dicts only. -/
def pyIndexStr : JValue → String → Except String JValue
  | .obj fs, k =>
      match jLookup fs k with
      | some v => .ok v
      | none => .error "KeyError"
  | _, _ => .error "TypeError: object is not subscriptable"

/-- Suffix test over character lists (String.endsWith does not reduce in
the kernel). -/
def strEndsWith (s suffix : String) : Bool := suffix.toList.isSuffixOf s.toList

/-- Prefix test over character lists. -/
def strStartsWith (s pre : String) : Bool := pre.toList.isPrefixOf s.toList

/-- Characters after the last slash (os.path.basename on archive entry
names). -/
def basenameChars (l : List Char) : List Char :=
  l.foldl (fun acc c => if c = Char.ofNat 47 then [] else acc ++ [c]) []

/-- Left-to-right non-overlapping replacement of a non-empty pattern, as
Python str.replace performs (the parser only replaces non-empty literal
patterns).  Structural recursion on a fuel bounded by the input length, so
that the kernel can evaluate it. -/
def replaceChars (pat rep : List Char) : Nat → List Char → List Char
  | 0, l => l
  | _ + 1, [] => []
  | fuel + 1, c :: rest =>
      if pat.isPrefixOf (c :: rest) && !pat.isEmpty then
        rep ++ replaceChars pat rep fuel (rest.drop (pat.length - 1))
      else
        c :: replaceChars pat rep fuel rest

/-- Python str.replace over strings. -/
def strReplace (s pat rep : String) : String :=
  String.mk (replaceChars pat.toList rep.toList s.toList.length s.toList)

/-- Python equality v == s against a string literal. -/
def pyEqStrVal (v : JValue) (s : String) : Bool :=
  match v with
  | .str t => t == s
  | _ => false

/-- Executable lower-casing of a string (Char.toLower on each character,
which agrees with Python str.lower() on the ASCII kind strings the parser
handles). -/
def strLower (s : String) : String := String.mk (s.toList.map Char.toLower)

/-- Python str.lower(): defined on strings, AttributeError otherwise. -/
def pyLower : JValue → Except String String
  | .str s => .ok (strLower s)
  | _ => .error "AttributeError: no attribute lower"

mutual

/-- Python equality between two json-loaded values: numbers and booleans
compare across kinds (True == 1), lists compare pointwise, dicts compare by
key lookup (json objects have unique keys, so same length plus pointwise
lookup-equality is dict equality). -/
def pyEq : JValue → JValue → Bool
  | .null, .null => true
  | .bool a, .bool b => a == b
  | .bool a, .num n => (if a then (1 : Int) else 0) == n
  | .num n, .bool b => n == (if b then (1 : Int) else 0)
  | .num a, .num b => a == b
  | .str a, .str b => a == b
  | .arr a, .arr b => pyEqList a b
  | .obj a, .obj b => a.length == b.length && pyEqObjSub a b
  | _, _ => false

/-- Pointwise Python equality of two lists. -/
def pyEqList : List JValue → List JValue → Bool
  | [], [] => true
  | a :: as, b :: bs => pyEq a b && pyEqList as bs
  | _, _ => false

/-- Each key of the first field list is present in the second with a
Python-equal value. -/
def pyEqObjSub : List (String × JValue) → List (String × JValue) → Bool
  | [], _ => true
  | (k, v) :: rest, b =>
      (match jLookup b k with
       | some w => pyEq v w
       | none => false) && pyEqObjSub rest b

end

mutual

/-- Python repr() of a json-loaded value (integers only for numbers;
string reprs use single quotes and ignore escaping, which the parser never
depends on). -/
def pyRepr : JValue → String
  | .null => "None"
  | .bool b => if b then "True" else "False"
  | .num n => toString n
  | .str s => String.singleton (Char.ofNat 39) ++ s ++ String.singleton (Char.ofNat 39)
  | .arr xs => "[" ++ pyReprList xs ++ "]"
  | .obj fs => "\x7b" ++ pyReprObj fs ++ "\x7d"

/-- Comma-separated reprs of list elements. -/
def pyReprList : List JValue → String
  | [] => ""
  | [x] => pyRepr x
  | x :: xs => pyRepr x ++ ", " ++ pyReprList xs

/-- Comma-separated reprs of dict items. -/
def pyReprObj : List (String × JValue) → String
  | [] => ""
  | [(k, v)] =>
      String.singleton (Char.ofNat 39) ++ k ++ String.singleton (Char.ofNat 39) ++ ": " ++ pyRepr v
  | (k, v) :: fs =>
      String.singleton (Char.ofNat 39) ++ k ++ String.singleton (Char.ofNat 39) ++ ": " ++ pyRepr v
        ++ ", " ++ pyReprObj fs

end

/-- Python str() of a json-loaded value: identity on strings, repr-like on
everything else (as f-string interpolation does). -/
def pyStrOf : JValue → String
  | .str s => s
  | v => pyRepr v

mutual

/-- Model of json.dumps on a json-loaded value (double-quoted strings,
default separators). -/
def jsonDumps : JValue → String
  | .null => "null"
  | .bool b => if b then "true" else "false"
  | .num n => toString n
  | .str s => "\x22" ++ s ++ "\x22"
  | .arr xs => "[" ++ jsonDumpsList xs ++ "]"
  | .obj fs => "\x7b" ++ jsonDumpsObj fs ++ "\x7d"

/-- Comma-separated dumps of list elements. -/
def jsonDumpsList : List JValue → String
  | [] => ""
  | [x] => jsonDumps x
  | x :: xs => jsonDumps x ++ ", " ++ jsonDumpsList xs

/-- Comma-separated dumps of dict items. -/
def jsonDumpsObj : List (String × JValue) → String
  | [] => ""
  | [(k, v)] => "\x22" ++ k ++ "\x22: " ++ jsonDumps v
  | (k, v) :: fs => "\x22" ++ k ++ "\x22: " ++ jsonDumps v ++ ", " ++ jsonDumpsObj fs

end

/-- Python str.title(): a letter is upper-cased when the previous character
is not a letter, lower-cased otherwise. -/
def pyTitle (s : String) : String :=
  String.mk ((s.toList.foldl
    (fun (acc : List Char × Bool) c =>
      if c.isAlpha then
        ((if acc.2 then c.toLower else c.toUpper) :: acc.1, true)
      else
        (c :: acc.1, false))
    ([], false)).1.reverse)

/-- Model of QgsPointXY: an (x, y) coordinate pair. -/
structure QgsPointXY where
  x : Int
  y : Int
deriving DecidableEq

/-- Model of QgsGeometry restricted to the constructors the parser uses
(fromPointXY, fromMultiPointXY, fromPolylineXY, fromMultiPolylineXY,
fromPolygonXY, fromMultiPolygonXY). -/
inductive QgsGeometry where
  | point (p : QgsPointXY)
  | multiPoint (ps : List QgsPointXY)
  | line (ps : List QgsPointXY)
  | multiLine (ls : List (List QgsPointXY))
  | polygon (rings : List (List QgsPointXY))
  | multiPolygon (ps : List (List (List QgsPointXY)))

/-- Model of QgsWkbTypes geometry-type tags returned by QgsGeometry.type(). -/
inductive QgsGeomType where
  | pointGeometry
  | lineGeometry
  | polygonGeometry
deriving DecidableEq

/-- Geometry-type tag of a geometry (QgsGeometry.type()). -/
def QgsGeometry.gtype : QgsGeometry → QgsGeomType
  | .point _ => .pointGeometry
  | .multiPoint _ => .pointGeometry
  | .line _ => .lineGeometry
  | .multiLine _ => .lineGeometry
  | .polygon _ => .polygonGeometry
  | .multiPolygon _ => .polygonGeometry

/-- Modelled from the spec: QgsGeometry.centroid() is QGIS library code, not
part of this repository.  The spec only uses that a non-point anchored
geometry is reduced to its centroid, which is a point; the coordinates of
the centroid are not modelled. -/
def QgsGeometry.centroid (_g : QgsGeometry) : QgsGeometry := .point ⟨0, 0⟩

/-- Values accepted by the QgsPointXY constructor: Python numbers, of which
booleans are a subclass (True acts as 1).  Anything else raises. -/
def asPyNumber : JValue → Option Int
  | .num n => some n
  | .bool b => some (if b then 1 else 0)
  | _ => none

/-- One step of the coordinate-pair list comprehensions in
_convert_geojson_geometry: the guard len(coord) >= 2 (raising on values
without a len), then QgsPointXY(coord[0], coord[1]) (raising on
non-numeric components).  Returns none when the guard filters the
coordinate out. -/
def convCoordPair (coord : JValue) : Except String (Option QgsPointXY) := do
  let l ← pyLen coord
  if l ≥ 2 then
    let c0 ← pyIndexNat coord 0
    let c1 ← pyIndexNat coord 1
    match asPyNumber c0, asPyNumber c1 with
    | some x, some y => return (some ⟨x, y⟩)
    | _, _ => throw "TypeError: QgsPointXY argument"
  else
    return none

/-- Body of the try block of _convert_geojson_geometry.  Any raised error
is caught by the caller and turned into None. -/
def convertBodyE (g : JValue) : Except String (Option QgsGeometry) := do
  let geomType ← pyIndexStr g "type"
  let coordinates ← pyGet g "coordinates" (.arr [])
  if pyEqStrVal geomType "Point" then
    let l ← pyLen coordinates
    if l ≥ 2 then
      let c0 ← pyIndexNat coordinates 0
      let c1 ← pyIndexNat coordinates 1
      match asPyNumber c0, asPyNumber c1 with
      | some x, some y => return (some (.point ⟨x, y⟩))
      | _, _ => throw "TypeError: QgsPointXY argument"
    else
      return none
  else if pyEqStrVal geomType "LineString" then
    let cs ← pyIter coordinates
    let pts ← cs.filterMapM convCoordPair
    if pts.isEmpty then return none else return (some (.line pts))
  else if pyEqStrVal geomType "Polygon" then
    if coordinates.isFalsy then
      return none
    else
      let c0 ← pyIndexNat coordinates 0
      let l0 ← pyLen c0
      if l0 > 0 then
        let cs ← pyIter c0
        let pts ← cs.filterMapM convCoordPair
        if pts.isEmpty then return none else return (some (.polygon [pts]))
      else
        return none
  else if pyEqStrVal geomType "MultiPoint" then
    let cs ← pyIter coordinates
    let pts ← cs.filterMapM convCoordPair
    if pts.isEmpty then return none else return (some (.multiPoint pts))
  else if pyEqStrVal geomType "MultiLineString" then
    let lcs ← pyIter coordinates
    let lines ← lcs.filterMapM (fun lc => do
      let cs ← pyIter lc
      let pts ← cs.filterMapM convCoordPair
      if pts.isEmpty then return none else return (some pts))
    if lines.isEmpty then return none else return (some (.multiLine lines))
  else if pyEqStrVal geomType "MultiPolygon" then
    let pcs ← pyIter coordinates
    let polys ← pcs.filterMapM (fun pc => do
      if pc.isFalsy then
        return none
      else
        let r0 ← pyIndexNat pc 0
        let l0 ← pyLen r0
        if l0 > 0 then
          let cs ← pyIter r0
          let pts ← cs.filterMapM convCoordPair
          if pts.isEmpty then return none else return (some [pts])
        else
          return none)
    if polys.isEmpty then return none else return (some (.multiPolygon polys))
  else
    return none

/-- Model of MVFv3Parser._convert_geojson_geometry.  The falsiness and
membership tests on the raw value happen before the try block, so a
TypeError raised by the membership test escapes; every error raised inside
the body is caught and collapsed to None. -/
def convert_geojson_geometry (g : JValue) : Except String (Option QgsGeometry) := do
  if g.isFalsy then
    return none
  else
    let hasType ← pyContains g "type"
    if !hasType then
      return none
    else
      match convertBodyE g with
      | .ok r => return r
      | .error _ => return none

/-- Attributed feature as built by the parser: a geometry plus the ordered
attribute dict. -/
structure FeatureData where
  geometry : QgsGeometry
  attributes : List (String × JValue)

/-- Field schema of a layer: ordered (name, QMetaType) pairs. -/
def geometryFields : List (String × String) :=
  [("geometry_id", "QString"), ("floor_id", "QString"), ("name", "QString"),
   ("description", "QString"), ("external_id", "QString"), ("icon", "QString"),
   ("kind", "QString")]

/-- Field schema of floor-boundary layers. -/
def floorFields : List (String × String) :=
  [("floor_id", "QString"), ("name", "QString"), ("elevation", "Double"),
   ("description", "QString"), ("external_id", "QString")]

/-- Field schema of location layers. -/
def locationFields : List (String × String) :=
  [("location_id", "QString"), ("name", "QString"), ("description", "QString"),
   ("external_id", "QString"), ("icon", "QString"), ("categories", "QString"),
   ("floor_id", "QString"), ("geometry_id", "QString"), ("anchor_count", "QString")]

/-- Field schema of generic extension layers. -/
def extensionFields : List (String × String) :=
  [("id", "QString"), ("data", "QString")]

/-- Layer-data dictionary as returned by the parser.  style_type is none
when the Python dict carries no style_type key.  floorKey is model
instrumentation only: it records for which floor document (or location
group) the layer was emitted, is none for venue-wide layers, and does not
exist in the Python dict; it is used solely to state per-floor ordering
properties. -/
structure Layer where
  name : String
  ltype : String
  features : List FeatureData
  fields : List (String × String)
  style_type : Option String := none
  floorKey : Option String := none

/-- Mutable attributes of MVFv3Parser that the parse threads through. -/
structure ParserState where
  manifest : Option JValue := none
  floors : Option JValue := none
  geometry : List (String × JValue) := []
  locations : Option JValue := none
  venueName : JValue := .str "Unknown Venue"
  kinds : List (String × JValue) := []

/-- Python dict assignment d[k] = v on a string-keyed dict: overwrite in
place when the key exists, append otherwise (insertion order preserved). -/
def setAssoc (m : List (String × JValue)) (k : String) (v : JValue) :
    List (String × JValue) :=
  if m.any (fun p => p.1 == k) then
    m.map (fun p => if p.1 == k then (k, v) else p)
  else
    m ++ [(k, v)]

/-- Model of MVFv3Parser._extract_floor_id_from_filename: basename of the
entry name with the .geojson and .json suffixes removed. -/
def extract_floor_id_from_filename (filename : String) : String :=
  let basename := String.mk (basenameChars filename.toList)
  strReplace (strReplace basename ".geojson" "") ".json" ""

/-- Model of MVFv3Parser._get_floor_name: linear scan of the floors
document for a feature whose properties id equals the floor id, returning
its details name; the floor id itself when absent. -/
def floorNameLoop (floor_id : JValue) : List JValue → Except String JValue
  | [] => pure floor_id
  | ff :: rest => do
      let properties ← pyGet ff "properties" (.obj [])
      let idv ← pyGet properties "id" .null
      if pyEq idv floor_id then do
        let details ← pyGet properties "details" (.obj [])
        pyGet details "name" floor_id
      else
        floorNameLoop floor_id rest

/-- Entry point of the floor-name resolution (_get_floor_name). -/
def get_floor_name (st : ParserState) (floor_id : JValue) : Except String JValue := do
  let fl := st.floors.getD .null
  if fl.isFalsy then
    return floor_id
  else
    let hasF ← pyContains fl "features"
    if !hasF then
      return floor_id
    else
      let fv ← pyIndexStr fl "features"
      let feats ← pyIter fv
      floorNameLoop floor_id feats

/-- Buckets of MVFv3Parser._process_geometry, in declaration order. -/
structure Buckets where
  polygons : List FeatureData := []
  lines : List FeatureData := []
  points : List FeatureData := []
  doors : List FeatureData := []
  windows : List FeatureData := []
  walls : List FeatureData := []

/-- Names of the six buckets. -/
inductive Bucket where
  | doors
  | windows
  | walls
  | polygons
  | lines
  | points
deriving DecidableEq

/-- Append a classified feature to its bucket. -/
def addToBucket (b : Buckets) (x : Bucket × FeatureData) : Buckets :=
  match x.1 with
  | .doors => { b with doors := b.doors ++ [x.2] }
  | .windows => { b with windows := b.windows ++ [x.2] }
  | .walls => { b with walls := b.walls ++ [x.2] }
  | .polygons => { b with polygons := b.polygons ++ [x.2] }
  | .lines => { b with lines := b.lines ++ [x.2] }
  | .points => { b with points := b.points ++ [x.2] }

/-- Debug tally over floor_kinds.items() kept live in the source: raises
when a truthy kinds document is not a dict, or when a kind value is
unhashable (a list or a dict used as a dict key). -/
def kindsTallyOk (floor_kinds : JValue) : Except String Unit :=
  if floor_kinds.isFalsy then
    .ok ()
  else
    match floor_kinds with
    | .obj fs =>
        if fs.all (fun p => match p.2 with | .arr _ => false | .obj _ => false | _ => true) then
          .ok ()
        else
          .error "TypeError: unhashable type"
    | _ => .error "AttributeError: no attribute items"

/-- Bucket decision of the classifier once the kind string has been
resolved and lower-cased: kind rules first (object discard, doors,
windows, walls), then the geometry-type fallback.  The point branch
evaluates the -p1 and -p2 membership on the raw id value, which raises for
truthy non-iterable ids. -/
def classify_core (kind_lower : String) (geom_kind : JValue) (geom_id : JValue)
    (gt : QgsGeomType) : Except String (Option Bucket) :=
  if containsSub kind_lower "object" then
    .ok none
  else if containsSub kind_lower "door" || containsSub kind_lower "entrance" ||
      containsSub kind_lower "entry" || containsSub kind_lower "exit" then
    .ok (some .doors)
  else if containsSub kind_lower "window" then
    .ok (some .windows)
  else if containsSub kind_lower "wall" then
    .ok (some .walls)
  else
    match gt with
    | .polygonGeometry =>
        .ok (if containsSub kind_lower "object" then none else some .polygons)
    | .lineGeometry =>
        .ok (if containsSub kind_lower "object" then none else some .lines)
    | .pointGeometry => do
        let p1 ← pyContains geom_id "-p1"
        let p2 ← pyContains geom_id "-p2"
        if p1 || p2 then
          pure none
        else
          let isKnown := containsSub kind_lower "stair" || containsSub kind_lower "elevator" ||
            containsSub kind_lower "escalator" || containsSub kind_lower "lift" ||
            containsSub kind_lower "stairs" || containsSub kind_lower "elevators"
          let isUnknown := pyEqStrVal geom_kind "unknown" || containsSub kind_lower "poi"
          pure (if isKnown || isUnknown then some .points else none)

/-- Attribute dict built for a geometry feature, in source order. -/
def mkGeomAttributes (geom_id : JValue) (floor_id : String)
    (nameV descV extIdV iconV geom_kind : JValue) : List (String × JValue) :=
  [("geometry_id", geom_id), ("floor_id", .str floor_id), ("name", nameV),
   ("description", descV), ("external_id", extIdV), ("icon", iconV),
   ("kind", geom_kind)]

/-- One iteration of the feature loop of _process_geometry: convert the
geometry (skip the feature when conversion yields None), extract the
properties, resolve the kind (default unknown), build the feature data and
decide the bucket.  Returns none on the continue paths. -/
def classify_feature (floor_kinds : JValue) (floor_id : String) (feat : JValue) :
    Except String (Option (Bucket × FeatureData)) := do
  let rawGeom ← pyGet feat "geometry" .null
  match ← convert_geojson_geometry rawGeom with
  | none => pure none
  | some geometry => do
      let properties ← pyGet feat "properties" (.obj [])
      let details ← pyGet properties "details" (.obj [])
      let geom_id ← pyGet properties "id" (.str "")
      let geom_kind ← pyGetKeyJ floor_kinds geom_id (.str "unknown")
      let nameV ← pyGet details "name" (.str "")
      let descV ← pyGet details "description" (.str "")
      let extIdV ← pyGet details "externalId" (.str "")
      let iconV ← pyGet details "icon" (.str "")
      let fd : FeatureData :=
        { geometry := geometry,
          attributes := mkGeomAttributes geom_id floor_id nameV descV extIdV iconV geom_kind }
      let kind_lower ← pyLower geom_kind
      match ← classify_core kind_lower geom_kind geom_id geometry.gtype with
      | none => pure none
      | some b => pure (some (b, fd))

/-- Doors layer built from the doors bucket. -/
def mkDoorsLayer (floor_name floor_id : String) (fds : List FeatureData) : Layer :=
  { name := floor_name ++ " - Doors", ltype := "linestring", features := fds,
    fields := geometryFields, style_type := some "door", floorKey := some floor_id }

/-- Windows layer built from the windows bucket. -/
def mkWindowsLayer (floor_name floor_id : String) (fds : List FeatureData) : Layer :=
  { name := floor_name ++ " - Windows", ltype := "linestring", features := fds,
    fields := geometryFields, style_type := some "window", floorKey := some floor_id }

/-- Walls layer built from the walls bucket. -/
def mkWallsLayer (floor_name floor_id : String) (fds : List FeatureData) : Layer :=
  { name := floor_name ++ " - Walls", ltype := "linestring", features := fds,
    fields := geometryFields, style_type := some "wall", floorKey := some floor_id }

/-- Spaces layer built from the polygons bucket. -/
def mkSpacesLayer (floor_name floor_id : String) (fds : List FeatureData) : Layer :=
  { name := floor_name ++ " - Spaces", ltype := "polygon", features := fds,
    fields := geometryFields, floorKey := some floor_id }

/-- Second doors layer built from the lines bucket, tagged line_doors. -/
def mkLineDoorsLayer (floor_name floor_id : String) (fds : List FeatureData) : Layer :=
  { name := floor_name ++ " - Doors", ltype := "linestring", features := fds,
    fields := geometryFields, style_type := some "line_doors", floorKey := some floor_id }

/-- Connections layer built from the points bucket. -/
def mkConnectionsLayer (floor_name floor_id : String) (fds : List FeatureData) : Layer :=
  { name := floor_name ++ " - Connections", ltype := "point", features := fds,
    fields := geometryFields, floorKey := some floor_id }

/-- Layer list emitted by _process_geometry, in source order: doors,
windows, walls, spaces, line doors, connections, each only when its bucket
is non-empty. -/
def mkGeometryLayers (floor_name floor_id : String) (b : Buckets) : List Layer :=
  (if b.doors.isEmpty then [] else [mkDoorsLayer floor_name floor_id b.doors]) ++
  (if b.windows.isEmpty then [] else [mkWindowsLayer floor_name floor_id b.windows]) ++
  (if b.walls.isEmpty then [] else [mkWallsLayer floor_name floor_id b.walls]) ++
  (if b.polygons.isEmpty then [] else [mkSpacesLayer floor_name floor_id b.polygons]) ++
  (if b.lines.isEmpty then [] else [mkLineDoorsLayer floor_name floor_id b.lines]) ++
  (if b.points.isEmpty then [] else [mkConnectionsLayer floor_name floor_id b.points])

/-- One iteration of the classification fold: classify the feature and add
it to its bucket, or keep the buckets unchanged on the continue paths. -/
def classifyStep (floor_kinds : JValue) (floor_id : String) (b : Buckets) (feat : JValue) :
    Except String Buckets := do
  match ← classify_feature floor_kinds floor_id feat with
  | none => pure b
  | some x => pure (addToBucket b x)

/-- Model of MVFv3Parser._process_geometry. -/
def process_geometry (st : ParserState) (floor_id : String) (geometry_data : JValue) :
    Except String (List Layer) := do
  if geometry_data.isFalsy then
    return []
  else
    let hasF ← pyContains geometry_data "features"
    if !hasF then
      return []
    else
      let featsV ← pyIndexStr geometry_data "features"
      if featsV.isFalsy then
        return []
      else
        let floor_kinds := (jLookup st.kinds floor_id).getD (.obj [])
        let _ ← kindsTallyOk floor_kinds
        let feats ← pyIter featsV
        let bks ← feats.foldlM (classifyStep floor_kinds floor_id) {}
        let floorNameV ← get_floor_name st (.str floor_id)
        return mkGeometryLayers (pyStrOf floorNameV) floor_id bks

/-- Model of MVFv3Parser._process_floors: one venue-wide polygon layer of
floor boundaries, when at least one floor feature carries convertible
geometry. -/
def process_floors (st : ParserState) : Except String (List Layer) := do
  let fl := st.floors.getD .null
  if fl.isFalsy then
    return []
  else
    let hasF ← pyContains fl "features"
    if !hasF then
      return []
    else
      let fv ← pyIndexStr fl "features"
      if fv.isFalsy then
        return []
      else
        let feats ← pyIter fv
        let features ← feats.filterMapM (fun ff => do
          let rawG ← pyGet ff "geometry" .null
          match ← convert_geojson_geometry rawG with
          | none => pure none
          | some geometry => do
              let properties ← pyGet ff "properties" (.obj [])
              let floorIdV ← pyGet properties "id" (.str "unknown")
              let details ← pyGet properties "details" (.obj [])
              let nameV ← pyGet details "name" (.str ("Floor " ++ pyStrOf floorIdV))
              let elevV ← pyGet properties "elevation" (.num 0)
              let descV ← pyGet details "description" (.str "")
              let extV ← pyGet details "externalId" (.str "")
              let fd : FeatureData :=
                { geometry := geometry,
                  attributes := [("floor_id", floorIdV), ("name", nameV),
                    ("elevation", elevV), ("description", descV),
                    ("external_id", extV)] }
              pure (some fd))
        if features.isEmpty then
          return []
        else
          return [{ name := pyStrOf st.venueName ++ " - Floor Boundaries",
                    ltype := "polygon", features := features, fields := floorFields }]

/-- Scan of a geometry feature list for the first feature whose properties
id is Python-equal to the searched id, converting its geometry. -/
def findGeomLoop (geometry_id : JValue) : List JValue → Except String (Option QgsGeometry)
  | [] => pure none
  | feature :: rest => do
      let properties ← pyGet feature "properties" (.obj [])
      let idv ← pyGet properties "id" .null
      if pyEq idv geometry_id then do
        let rawG ← pyGet feature "geometry" .null
        convert_geojson_geometry rawG
      else
        findGeomLoop geometry_id rest

/-- Model of MVFv3Parser._find_geometry_by_id: look the floor id up in the
per-floor geometry index (raising on unhashable floor ids, missing on any
non-string key since the index is keyed by filename-derived strings), then
scan that floor's features. -/
def find_geometry_by_id (st : ParserState) (geometry_id floor_id : JValue) :
    Except String (Option QgsGeometry) := do
  match floor_id with
  | .arr _ => throw "TypeError: unhashable type"
  | .obj _ => throw "TypeError: unhashable type"
  | .str fs =>
      match jLookup st.geometry fs with
      | none => pure none
      | some floor_geometry => do
          let hasF ← pyContains floor_geometry "features"
          if !hasF then
            pure none
          else do
            let fv ← pyIndexStr floor_geometry "features"
            let feats ← pyIter fv
            findGeomLoop geometry_id feats
  | _ => pure none

/-- Python string join with a separator: every element must be a string. -/
def pyJoin (sep : String) (xs : List JValue) : Except String String :=
  if xs.all (fun x => match x with | .str _ => true | _ => false) then
    .ok (String.intercalate sep (xs.map (fun x => match x with | .str s => s | _ => "")))
  else
    .error "TypeError: join expects str"

/-- One iteration of the anchor-resolution loop: resolve the anchor and
append the (floorId, geometryId, geometry) triple when found. -/
def anchorStep (st : ParserState) (acc : List (JValue × JValue × QgsGeometry))
    (anchor : JValue) : Except String (List (JValue × JValue × QgsGeometry)) := do
  let gid ← pyGet anchor "geometryId" .null
  let fid ← pyGet anchor "floorId" .null
  match ← find_geometry_by_id st gid fid with
  | some g => pure (acc ++ [(fid, gid, g)])
  | none => pure acc

/-- Body of the per-location loop of _process_locations: skip locations
with falsy geometryAnchors, resolve every anchor against the geometry
index keeping the resolvable ones, skip the location when none resolves,
then emit one point feature per resolved anchor (centroid for non-point
geometry), each carrying anchor_count = str(len(geometryAnchors)). -/
def process_one_location (st : ParserState) (location_data : JValue) :
    Except String (List FeatureData) := do
  let _locationId ← pyGet location_data "id" (.str "unknown")
  let d0 ← pyGet location_data "details" (.obj [])
  let _locationName ← pyGet d0 "name" (.str "Unnamed")
  let geometry_anchors ← pyGet location_data "geometryAnchors" (.arr [])
  if geometry_anchors.isFalsy then
    return []
  else
    let anchorList ← pyIter geometry_anchors
    let geometries ← anchorList.foldlM (anchorStep st) []
    if geometries.isEmpty then
      return []
    else
      let details ← pyGet location_data "details" (.obj [])
      let categoriesV ← pyGet location_data "categories" (.arr [])
      let cats ← pyIter categoriesV
      let category_names ← cats.mapM (fun cat =>
        match cat with
        | .obj fs => pyGet (.obj fs) "name" (.str "")
        | _ => pure (.str (pyStrOf cat)))
      let catStr ← pyJoin ", " category_names
      let anchorLen ← pyLen geometry_anchors
      let idv ← pyGet location_data "id" (.str "")
      let nameV ← pyGet details "name" (.str "")
      let descV ← pyGet details "description" (.str "")
      let extV ← pyGet details "externalId" (.str "")
      let iconV ← pyGet details "icon" (.str "")
      return geometries.map (fun t =>
        { geometry := if t.2.2.gtype = .pointGeometry then t.2.2 else t.2.2.centroid,
          attributes := [("location_id", idv), ("name", nameV), ("description", descV),
            ("external_id", extV), ("icon", iconV), ("categories", .str catStr),
            ("floor_id", t.1), ("geometry_id", t.2.1),
            ("anchor_count", .str (toString anchorLen))] })

/-- Floor-id attribute of an emitted location feature (always present by
construction). -/
def floorIdAttr (fd : FeatureData) : JValue :=
  (jLookup fd.attributes "floor_id").getD .null

/-- Python dict-grouping step of _process_locations: append the feature to
the group of its floor id, creating the group at the end on first sight
(dict insertion order). -/
def groupInsert (acc : List (JValue × List FeatureData)) (k : JValue) (fd : FeatureData) :
    List (JValue × List FeatureData) :=
  if acc.any (fun kv => pyEq kv.1 k) then
    acc.map (fun kv => if pyEq kv.1 k then (kv.1, kv.2 ++ [fd]) else kv)
  else
    acc ++ [(k, [fd])]

/-- Ghost floor key of a location-layer group: the grouping key when it is
a string (which it always is for resolvable anchors, since the geometry
index is keyed by strings). -/
def jstrKey : JValue → Option String
  | .str s => some s
  | _ => none

/-- Model of MVFv3Parser._process_locations. -/
def process_locations (st : ParserState) : Except String (List Layer) := do
  let locs := st.locations.getD .null
  if locs.isFalsy then
    return []
  else
    let hasF ← pyContains locs "features"
    let location_list ←
      if hasF then do
        let fv ← pyIndexStr locs "features"
        let fl ← pyIter fv
        fl.mapM (fun f => pyGet f "properties" (.obj []))
      else
        match locs with
        | .arr xs => pure xs
        | _ => pure [locs]
    if location_list.isEmpty then
      return []
    else
      let features ← location_list.foldlM (fun acc loc => do
        let fds ← process_one_location st loc
        pure (acc ++ fds)) []
      if features.isEmpty then
        return []
      else
        let floor_locations := features.foldl
          (fun acc fd => groupInsert acc (floorIdAttr fd) fd) []
        floor_locations.mapM (fun kv => do
          let floorNameV ← get_floor_name st kv.1
          pure ({ name := pyStrOf floorNameV ++ " - Locations", ltype := "point",
                  features := kv.2, fields := locationFields,
                  floorKey := jstrKey kv.1 } : Layer))

/-- Try-block body of MVFv3Parser._process_extension_file. -/
def process_extension_fileE (st : ParserState) (filename : String)
    (content : Except String JValue) : Except String (List Layer) := (do
    let data ← content
    let extension_name := pyTitle (strReplace (strReplace filename ".geojson" "") "_" " ")
    let hasF ← pyContains data "features"
    if !hasF then
      return []
    else
      let fv ← pyIndexStr data "features"
      let feats ← pyIter fv
      let features ← feats.filterMapM (fun feature => do
        let rawG ← pyGet feature "geometry" .null
        match ← convert_geojson_geometry rawG with
        | none => pure none
        | some geometry => do
            let properties ← pyGet feature "properties" (.obj [])
            let idv ← pyGet properties "id" (.str "")
            let fd : FeatureData :=
              { geometry := geometry,
                attributes := [("id", idv), ("data", .str (jsonDumps properties))] }
            pure (some fd))
      if features.isEmpty then
        return []
      else
        return [({ name := pyStrOf st.venueName ++ " - " ++ extension_name,
                   ltype := "mixed", features := features,
                   fields := extensionFields } : Layer)] : Except String (List Layer))

/-- Model of MVFv3Parser._process_extension_file: the whole body sits in a
try block, so any failure (including the json.load of the entry) yields an
empty contribution rather than an error. -/
def process_extension_file (st : ParserState) (filename : String)
    (content : Except String JValue) : List Layer :=
  match process_extension_fileE st filename content with
  | .ok ls => ls
  | .error _ => []

/-- Archive entry: name plus the outcome of json.load on its bytes. -/
structure ZipEntry where
  name : String
  content : Except String JValue

/-- Content of the first entry with a given name (zipfile.open). -/
def lookupContent (entries : List ZipEntry) (n : String) : Except String JValue :=
  match entries.find? (fun e => e.name == n) with
  | some e => e.content
  | none => .error "KeyError: entry not in archive"

/-- Model of MVFv3Parser._extract_venue_info. -/
def extract_venue_info (venue : JValue) (m : JValue) : Except String JValue := do
  if m.isFalsy then
    return venue
  else
    let hasF ← pyContains m "features"
    if !hasF then
      return venue
    else
      let fv ← pyIndexStr m "features"
      let l ← pyLen fv
      if l > 0 then
        let mf ← pyIndexNat fv 0
        let properties ← pyGet mf "properties" (.obj [])
        pyGet properties "name" (.str "Unknown Venue")
      else
        return venue

/-- Step 1 of _parse_mvf_zip: load the manifest when present and extract
the venue name. -/
def stepManifest (entries : List ZipEntry) (st : ParserState) : Except String ParserState := do
  if (entries.map (fun e => e.name)).contains "manifest.geojson" then
    let m ← lookupContent entries "manifest.geojson"
    let v ← extract_venue_info st.venueName m
    pure { st with manifest := some m, venueName := v }
  else
    pure st

/-- Step 2 of _parse_mvf_zip: load the floors document when present and
emit the floor-boundary layers. -/
def stepFloors (entries : List ZipEntry) (st : ParserState) :
    Except String (ParserState × List Layer) := do
  if (entries.map (fun e => e.name)).contains "floors.geojson" then
    let fl ← lookupContent entries "floors.geojson"
    let st := { st with floors := some fl }
    let ls ← process_floors st
    pure (st, ls)
  else
    pure (st, [])

/-- Entry names selected as kinds documents. -/
def kindsFileNames (file_names : List String) : List String :=
  file_names.filter (fun f => strStartsWith f "kinds/" && strEndsWith f ".json")

/-- Entry names selected as geometry documents. -/
def geometryFileNames (file_names : List String) : List String :=
  file_names.filter (fun f => strStartsWith f "geometry/" && strEndsWith f ".geojson")

/-- Step 3 of _parse_mvf_zip: load every kinds document into the per-floor
kind table. -/
def stepKinds (entries : List ZipEntry) (st : ParserState) : Except String ParserState :=
  (kindsFileNames (entries.map (fun e => e.name))).foldlM (fun st kf => do
    let kd ← lookupContent entries kf
    pure { st with kinds := setAssoc st.kinds (extract_floor_id_from_filename kf) kd }) st

/-- Step 4 of _parse_mvf_zip: load every geometry document into the index
and emit its layers. -/
def stepGeometry (entries : List ZipEntry) (st : ParserState) :
    Except String (ParserState × List Layer) :=
  (geometryFileNames (entries.map (fun e => e.name))).foldlM
    (fun (p : ParserState × List Layer) gf => do
      let floorId := extract_floor_id_from_filename gf
      let gd ← lookupContent entries gf
      let st := { p.1 with geometry := setAssoc p.1.geometry floorId gd }
      let ls ← process_geometry st floorId gd
      pure (st, p.2 ++ ls)) (st, [])

/-- Locations entry selected by _parse_mvf_zip: locations.geojson wins
over locations.json. -/
def locationsFileName (file_names : List String) : Option String :=
  if file_names.contains "locations.geojson" then some "locations.geojson"
  else if file_names.contains "locations.json" then some "locations.json"
  else none

/-- Step 5 of _parse_mvf_zip: load the locations document when present,
wrapping a bare list into a FeatureCollection, and emit location layers. -/
def stepLocations (entries : List ZipEntry) (st : ParserState) :
    Except String (ParserState × List Layer) := do
  match locationsFileName (entries.map (fun e => e.name)) with
  | none => pure (st, [])
  | some lf => do
      let ld ← lookupContent entries lf
      let wrapped := match ld with
        | .arr locs =>
            JValue.obj [("features", .arr (locs.map (fun loc => .obj [("properties", loc)])))]
        | other => other
      let st := { st with locations := some wrapped }
      let ls ← process_locations st
      pure (st, ls)

/-- Entry names treated as generic extension documents. -/
def isExtensionName (f : String) : Bool :=
  strEndsWith f ".geojson" &&
    !(f == "manifest.geojson" || f == "floors.geojson" || f == "locations.geojson") &&
    !(strStartsWith f "geometry/")

/-- Step 6 of _parse_mvf_zip: process every extension entry, each failure
contributing nothing. -/
def stepExtensions (entries : List ZipEntry) (st : ParserState) : List Layer :=
  (entries.map (fun e => e.name)).foldl (fun acc ef =>
    if isExtensionName ef then
      acc ++ process_extension_file st ef (lookupContent entries ef)
    else
      acc) []

/-- Model of MVFv3Parser._parse_mvf_zip on an opened archive. -/
def parse_mvf_zip (entries : List ZipEntry) : Except String (List Layer) := do
  let st1 ← stepManifest entries {}
  let (st2, floorLayers) ← stepFloors entries st1
  let st3 ← stepKinds entries st2
  let (st4, geomLayers) ← stepGeometry entries st3
  let (st5, locLayers) ← stepLocations entries st4
  return floorLayers ++ geomLayers ++ locLayers ++ stepExtensions entries st5

/-- Model of MVFv3Parser.parse_mvf_package: the archive argument is the
outcome of opening the container (a container failure is an error here);
any error raised anywhere is re-wrapped with a fixed message onto the
caller. -/
def parse_mvf_package (file_path : String) (archive : Except String (List ZipEntry)) :
    Except String (List Layer) :=
  match (do
    if strEndsWith (strLower file_path) ".zip" || strEndsWith (strLower file_path) ".mvf" then
      let entries ← archive
      parse_mvf_zip entries
    else
      throw ("Unsupported file format. MVF v3 requires ZIP package: " ++ file_path) :
      Except String (List Layer)) with
  | .ok l => .ok l
  | .error e => .error ("Failed to parse MVF v3 package: " ++ e)

/-- Witness feature for C7: kind door, LineString geometry (end-to-end
scenario 2 of the spec). -/
def w7feat : JValue :=
  .obj [("geometry", .obj [("type", .str "LineString"),
          ("coordinates", .arr [.arr [.num 0, .num 0], .arr [.num 1, .num 1]])]),
        ("properties", .obj [("id", .str "d1")])]

/-- Witness feature for C6: point geometry, id g1, no kind-table entry
(end-to-end scenario 3 of the spec). -/
def w6feat : JValue :=
  .obj [("geometry", .obj [("type", .str "Point"),
          ("coordinates", .arr [.num 3, .num 4])]),
        ("properties", .obj [("id", .str "g1")])]

/-- Feature list of a bucket by name. -/
def bucketList (b : Buckets) : Bucket → List FeatureData
  | .doors => b.doors
  | .windows => b.windows
  | .walls => b.walls
  | .polygons => b.polygons
  | .lines => b.lines
  | .points => b.points

/-- Every feature of every bucket satisfies the bucket-indexed predicate. -/
def BucketsInv (Q : Bucket → FeatureData → Prop) (bks : Buckets) : Prop :=
  ∀ bk, ∀ fd ∈ bucketList bks bk, Q bk fd

/-- Counterexample input for C2: a LineString feature whose id contains
-p1, with no kind-table entry. -/
def c2feat : JValue :=
  .obj [("geometry", .obj [("type", .str "LineString"),
          ("coordinates", .arr [.arr [.num 0, .num 0], .arr [.num 1, .num 1]])]),
        ("properties", .obj [("id", .str "x-p1")])]


/-- Geometry document holding only the C2 counterexample feature. -/
def c2doc : JValue := .obj [("features", .arr [c2feat])]


/-- Feature data the parser builds for the C2 counterexample feature. -/
def c2fd : FeatureData :=
  ⟨.line [⟨0, 0⟩, ⟨1, 1⟩],
   mkGeomAttributes (.str "x-p1") "f1" (.str "") (.str "") (.str "") (.str "")
     (.str "unknown")⟩


/-- Kind table used by the C5 counterexample: the door-navigation point id
is mapped to kind door. -/
def c5kinds : JValue := .obj [("d-p1", .str "door")]


/-- Counterexample input for C5: a Point feature whose id contains -p1. -/
def c5feat : JValue :=
  .obj [("geometry", .obj [("type", .str "Point"),
          ("coordinates", .arr [.num 0, .num 0])]),
        ("properties", .obj [("id", .str "d-p1")])]


/-- Geometry document holding only the C5 counterexample feature. -/
def c5doc : JValue := .obj [("features", .arr [c5feat])]


/-- Feature data built for the C5 counterexample feature. -/
def c5fd : FeatureData :=
  ⟨.point ⟨0, 0⟩,
   mkGeomAttributes (.str "d-p1") "f1" (.str "") (.str "") (.str "") (.str "")
     (.str "door")⟩


/-- Parser state for the C5 counterexample. -/
def c5st : ParserState := { kinds := [("f1", c5kinds)] }


/-- Geometry document holding only the unknown-kind point feature. -/
def w6doc : JValue := .obj [("features", .arr [w6feat])]


/-- Feature data built for the unknown-kind point feature. -/
def w6fd : FeatureData :=
  ⟨.point ⟨3, 4⟩,
   mkGeomAttributes (.str "g1") "f1" (.str "") (.str "") (.str "") (.str "")
     (.str "unknown")⟩


/-- Witness input for C4: a point feature whose kind-table entry is
Object. -/
def c4feat : JValue :=
  .obj [("geometry", .obj [("type", .str "Point"),
          ("coordinates", .arr [.num 5, .num 6])]),
        ("properties", .obj [("id", .str "o1")])]


/-- Values on which the Python membership test cannot raise: dicts, lists
and strings. -/
def isMembershipSafe : JValue → Bool
  | .obj _ => true
  | .arr _ => true
  | .str _ => true
  | _ => false


/-- Geometry document for the C10 concrete case: floor fa with a single
point geometry ga. -/
def c10geomDoc : JValue :=
  .obj [("features", .arr [
    .obj [("geometry", .obj [("type", .str "Point"), ("coordinates", .arr [.num 1, .num 2])]),
          ("properties", .obj [("id", .str "ga")])]])]


/-- Parser state for the C10 concrete case. -/
def c10st : ParserState := { geometry := [("fa", c10geomDoc)] }


/-- Location record for the C10 concrete case: two anchors, the second of
which dangles. -/
def c10loc : JValue :=
  .obj [("id", .str "loc1"), ("details", .obj [("name", .str "Shop")]),
        ("geometryAnchors", .arr [
          .obj [("geometryId", .str "ga"), ("floorId", .str "fa")],
          .obj [("geometryId", .str "missing"), ("floorId", .str "fa")]])]


/-- Single feature the C10 concrete location emits: anchor_count is the
string 2 although only one anchor resolved. -/
def c10fd : FeatureData :=
  ⟨.point ⟨1, 2⟩,
   [("location_id", .str "loc1"), ("name", .str "Shop"), ("description", .str ""),
    ("external_id", .str ""), ("icon", .str ""), ("categories", .str ""),
    ("floor_id", .str "fa"), ("geometry_id", .str "ga"), ("anchor_count", .str "2")]⟩


/-- Geometry document of floor fa for the C8 scenario: one point geometry
ga. -/
def c8geomA : JValue :=
  .obj [("features", .arr [
    .obj [("geometry", .obj [("type", .str "Point"), ("coordinates", .arr [.num 1, .num 2])]),
          ("properties", .obj [("id", .str "ga")])]])]


/-- Geometry document of floor fb for the C8 scenario: one polygon
geometry gb. -/
def c8geomB : JValue :=
  .obj [("features", .arr [
    .obj [("geometry", .obj [("type", .str "Polygon"),
            ("coordinates", .arr [.arr [.arr [.num 0, .num 0], .arr [.num 2, .num 0],
              .arr [.num 2, .num 2]]])]),
          ("properties", .obj [("id", .str "gb")])]])]


/-- Location of the C8 scenario: two anchors on two floors, both
resolvable. -/
def c8loc : JValue :=
  .obj [("id", .str "loc1"), ("details", .obj [("name", .str "Shop")]),
        ("geometryAnchors", .arr [
          .obj [("geometryId", .str "ga"), ("floorId", .str "fa")],
          .obj [("geometryId", .str "gb"), ("floorId", .str "fb")]])]


/-- Parser state of the C8 scenario (locations already wrapped as the zip
step does). -/
def c8st : ParserState :=
  { geometry := [("fa", c8geomA), ("fb", c8geomB)],
    locations := some (.obj [("features", .arr [.obj [("properties", c8loc)]])]) }


/-- Feature emitted on floor fa for the C8 scenario. -/
def c8fdA : FeatureData :=
  ⟨.point ⟨1, 2⟩,
   [("location_id", .str "loc1"), ("name", .str "Shop"), ("description", .str ""),
    ("external_id", .str ""), ("icon", .str ""), ("categories", .str ""),
    ("floor_id", .str "fa"), ("geometry_id", .str "ga"), ("anchor_count", .str "2")]⟩


/-- Feature emitted on floor fb for the C8 scenario (centroid of the
polygon as modelled). -/
def c8fdB : FeatureData :=
  ⟨.point ⟨0, 0⟩,
   [("location_id", .str "loc1"), ("name", .str "Shop"), ("description", .str ""),
    ("external_id", .str ""), ("icon", .str ""), ("categories", .str ""),
    ("floor_id", .str "fb"), ("geometry_id", .str "gb"), ("anchor_count", .str "2")]⟩


/-- Locations layer on floor fa for the C8 scenario. -/
def c8layerA : Layer :=
  { name := "fa - Locations", ltype := "point", features := [c8fdA],
    fields := locationFields, floorKey := some "fa" }


/-- Locations layer on floor fb for the C8 scenario. -/
def c8layerB : Layer :=
  { name := "fb - Locations", ltype := "point", features := [c8fdB],
    fields := locationFields, floorKey := some "fb" }


/-- Names of the archive entries whose json.load outcome the zip parse
consumes outside any try block, in processing order: the manifest and
floors documents when present, every kinds and geometry document, and the
selected locations document. -/
def coreDocNames (file_names : List String) : List String :=
  (if file_names.contains "manifest.geojson" then ["manifest.geojson"] else []) ++
  (if file_names.contains "floors.geojson" then ["floors.geojson"] else []) ++
  kindsFileNames file_names ++ geometryFileNames file_names ++
  (match locationsFileName file_names with | some lf => [lf] | none => [])


/-- Geometry document of the C1 packages: one point feature g1. -/
def c1geomDoc : JValue :=
  .obj [("features", .arr [
    .obj [("geometry", .obj [("type", .str "Point"), ("coordinates", .arr [.num 1, .num 2])]),
          ("properties", .obj [("id", .str "g1")])]])]


/-- Feature data built for the C1 geometry document. -/
def c1fd : FeatureData :=
  ⟨.point ⟨1, 2⟩,
   mkGeomAttributes (.str "g1") "f1" (.str "") (.str "") (.str "") (.str "")
     (.str "unknown")⟩


/-- Connections layer emitted for the C1 geometry document. -/
def c1connLayer : Layer := mkConnectionsLayer "f1" "f1" [c1fd]


/-- C1 package with a malformed locations document. -/
def c1entsBad : List ZipEntry :=
  [⟨"geometry/f1.geojson", .ok c1geomDoc⟩, ⟨"locations.json", .error "Expecting value"⟩]


/-- C1 package without the malformed document. -/
def c1entsGood : List ZipEntry := [⟨"geometry/f1.geojson", .ok c1geomDoc⟩]


/-- C1 package with a malformed extension document. -/
def c1entsExt : List ZipEntry :=
  [⟨"geometry/f1.geojson", .ok c1geomDoc⟩, ⟨"extra.geojson", .error "Expecting value"⟩]


/-- C1 package with a malformed kinds document. -/
def c1entsKindsBad : List ZipEntry :=
  [⟨"kinds/f1.json", .error "Expecting value"⟩, ⟨"geometry/f1.geojson", .ok c1geomDoc⟩]


/-- Role of an emitted layer, recoverable from its shape: the style hint
for the four styled layers, the geometry type and field schema for the
others. -/
inductive LayerRole where
  | doorsR
  | windowsR
  | wallsR
  | spacesR
  | lineDoorsR
  | connectionsR
  | locationsR
deriving DecidableEq


/-- Role classification of a layer from its observable shape. -/
def roleOf (L : Layer) : Option LayerRole :=
  match L.style_type with
  | some "door" => some .doorsR
  | some "window" => some .windowsR
  | some "wall" => some .wallsR
  | some "line_doors" => some .lineDoorsR
  | some _ => none
  | none =>
      if L.ltype = "polygon" ∧ L.fields = geometryFields then some .spacesR
      else if L.ltype = "point" ∧ L.fields = geometryFields then some .connectionsR
      else if L.ltype = "point" ∧ L.fields = locationFields then some .locationsR
      else none


/-- Per-floor layer roles in emission order. -/
def geomRoleList : List LayerRole :=
  [.doorsR, .windowsR, .wallsR, .spacesR, .lineDoorsR, .connectionsR]


/-- A block of layers emitted for one floor document: roles in canonical
order, tagged with the floor, all non-empty, none a locations layer. -/
def GeomBlock (fid : String) (ls : List Layer) : Prop :=
  (ls.map roleOf).Sublist (geomRoleList.map some) ∧
  ∀ L ∈ ls, L.floorKey = some fid ∧ L.features ≠ []


/-- Well-formedness of the floor grouping: groups are non-empty and keys
pairwise distinct under Python equality. -/
def GroupsWF (gs : List (JValue × List FeatureData)) : Prop :=
  (∀ kv ∈ gs, kv.2 ≠ []) ∧ gs.Pairwise (fun a b => pyEq a.1 b.1 = false)


/-- Witness package for C3: two floor documents and a two-anchor
location. -/
def w3ents : List ZipEntry :=
  [⟨"geometry/fa.geojson", .ok c8geomA⟩, ⟨"geometry/fb.geojson", .ok c8geomB⟩,
   ⟨"locations.json", .ok (.arr [c8loc])⟩]


/-- Connections feature of the witness package on floor fa. -/
def w3fdA : FeatureData :=
  ⟨.point ⟨1, 2⟩,
   mkGeomAttributes (.str "ga") "fa" (.str "") (.str "") (.str "") (.str "")
     (.str "unknown")⟩


/-- Spaces feature of the witness package on floor fb. -/
def w3fdB : FeatureData :=
  ⟨.polygon [[⟨0, 0⟩, ⟨2, 0⟩, ⟨2, 2⟩]],
   mkGeomAttributes (.str "gb") "fb" (.str "") (.str "") (.str "") (.str "")
     (.str "unknown")⟩


/-- Layer sequence the witness package parses to. -/
def w3layers : List Layer :=
  [mkConnectionsLayer "fa" "fa" [w3fdA], mkSpacesLayer "fb" "fb" [w3fdB],
   c8layerA, c8layerB]


/-! ## Helper lemmas -/

/-- Inversion of a successful Except bind. -/
theorem bindOk {α β : Type} {x : Except String α} {f : α → Except String β} {c : β}
    (h : (x >>= f) = .ok c) : ∃ a, x = .ok a ∧ f a = .ok c := by
  cases x with
  | ok a => exact ⟨a, rfl, by simpa [bind, Except.bind] using h⟩
  | error e => simp [bind, Except.bind] at h

/-- A bucketed feature passed the object filter. -/
theorem classify_core_some_object (kl : String) (kind gid : JValue) (gt : QgsGeomType)
    (b : Bucket) (h : classify_core kl kind gid gt = .ok (some b)) :
    containsSub kl "object" = false := by
  cases hc : containsSub kl "object" with
  | false => rfl
  | true => simp [classify_core, hc] at h

/-- A feature bucketed into points came through the point fallback with
both door-navigation membership tests false. -/
theorem classify_core_points_inv (kl : String) (kind gid : JValue) (gt : QgsGeomType)
    (h : classify_core kl kind gid gt = .ok (some .points)) :
    gt = .pointGeometry ∧ pyContains gid "-p1" = .ok false ∧ pyContains gid "-p2" = .ok false := by
  unfold classify_core at h
  split at h
  · simp at h
  · split at h
    · simp at h
    · split at h
      · simp at h
      · split at h
        · simp at h
        · cases gt with
          | polygonGeometry => simp at h
          | lineGeometry => simp at h
          | pointGeometry =>
              refine ⟨rfl, ?_⟩
              obtain ⟨p1, e1, h⟩ := bindOk h
              obtain ⟨p2, e2, h⟩ := bindOk h
              cases hp : (p1 || p2) with
              | true => rw [hp] at h; simp [pure, Except.pure] at h
              | false =>
                  have hps := Bool.or_eq_false_iff.mp hp
                  rw [hps.1] at e1
                  rw [hps.2] at e2
                  exact ⟨e1, e2⟩

/-- Kind attribute of the geometry attribute dict. -/
theorem jLookup_geomAttrs_kind (gid : JValue) (fid : String) (nm ds ex ic kd : JValue) :
    jLookup (mkGeomAttributes gid fid nm ds ex ic kd) "kind" = some kd := rfl

/-- Geometry-id attribute of the geometry attribute dict. -/
theorem jLookup_geomAttrs_gid (gid : JValue) (fid : String) (nm ds ex ic kd : JValue) :
    jLookup (mkGeomAttributes gid fid nm ds ex ic kd) "geometry_id" = some gid := rfl

/-- Inversion of a successful classification: the feature data is the
attribute record of the extracted properties and the core classifier
accepted it. -/
theorem classify_feature_some_inv (floor_kinds : JValue) (floor_id : String) (feat : JValue)
    (b : Bucket) (fd : FeatureData)
    (h : classify_feature floor_kinds floor_id feat = .ok (some (b, fd))) :
    ∃ geom_id geom_kind nameV descV extIdV iconV kl,
      fd.attributes = mkGeomAttributes geom_id floor_id nameV descV extIdV iconV geom_kind ∧
      pyLower geom_kind = .ok kl ∧
      classify_core kl geom_kind geom_id fd.geometry.gtype = .ok (some b) := by
  unfold classify_feature at h
  obtain ⟨rawGeom, e1, h⟩ := bindOk h
  obtain ⟨geomOpt, e2, h⟩ := bindOk h
  cases geomOpt with
  | none => simp [pure, Except.pure] at h
  | some geometry =>
      obtain ⟨properties, e3, h⟩ := bindOk h
      obtain ⟨details, e4, h⟩ := bindOk h
      obtain ⟨geom_id, e5, h⟩ := bindOk h
      obtain ⟨geom_kind, e6, h⟩ := bindOk h
      obtain ⟨nameV, e7, h⟩ := bindOk h
      obtain ⟨descV, e8, h⟩ := bindOk h
      obtain ⟨extIdV, e9, h⟩ := bindOk h
      obtain ⟨iconV, e10, h⟩ := bindOk h
      obtain ⟨kl, e11, h⟩ := bindOk h
      obtain ⟨res, e12, h⟩ := bindOk h
      cases res with
      | none => simp [pure, Except.pure] at h
      | some b2 =>
          simp only [pure, Except.pure, Except.ok.injEq, Option.some.injEq, Prod.mk.injEq] at h
          obtain ⟨hb, hfd⟩ := h
          subst hb
          subst hfd
          exact ⟨geom_id, geom_kind, nameV, descV, extIdV, iconV, kl, rfl, e11, e12⟩

/-- Adding a classified feature preserves a bucket-indexed invariant. -/
theorem addToBucket_inv (Q : Bucket → FeatureData → Prop) (bks : Buckets)
    (x : Bucket × FeatureData) (hb : BucketsInv Q bks) (hx : Q x.1 x.2) :
    BucketsInv Q (addToBucket bks x) := by
  intro bk fd hfd
  obtain ⟨xb, xfd⟩ := x
  cases xb <;> cases bk <;>
    simp only [addToBucket, bucketList, List.mem_append, List.mem_singleton] at hfd <;>
    first
      | exact hb _ _ hfd
      | (rcases hfd with hfd | hfd
         · exact hb _ _ hfd
         · subst hfd; exact hx)

/-- Classification fold preserves a bucket-indexed invariant derived from
the per-feature classifier. -/
theorem classify_fold_inv (Q : Bucket → FeatureData → Prop) (fk : JValue) (fid : String)
    (feats : List JValue) (b0 bks : Buckets)
    (h : feats.foldlM (classifyStep fk fid) b0 = .ok bks)
    (h0 : BucketsInv Q b0)
    (hstep : ∀ feat b fd, classify_feature fk fid feat = .ok (some (b, fd)) → Q b fd) :
    BucketsInv Q bks := by
  induction feats generalizing b0 with
  | nil =>
      simp only [List.foldlM, pure, Except.pure, Except.ok.injEq] at h
      subst h
      exact h0
  | cons a l ih =>
      simp only [List.foldlM] at h
      obtain ⟨b1, e1, h⟩ := bindOk h
      unfold classifyStep at e1
      obtain ⟨r, ec, e1⟩ := bindOk e1
      cases r with
      | none =>
          simp only [pure, Except.pure, Except.ok.injEq] at e1
          subst e1
          exact ih _ h h0
      | some x =>
          simp only [pure, Except.pure, Except.ok.injEq] at e1
          subst e1
          obtain ⟨xb, xfd⟩ := x
          exact ih _ h (addToBucket_inv Q b0 _ h0 (hstep a xb xfd ec))

/-- Membership in the emitted geometry layers determines the layer and the
non-emptiness of its bucket. -/
theorem mem_mkGeometryLayers (L : Layer) (fn fid : String) (b : Buckets)
    (h : L ∈ mkGeometryLayers fn fid b) :
    (b.doors ≠ [] ∧ L = mkDoorsLayer fn fid b.doors) ∨
    (b.windows ≠ [] ∧ L = mkWindowsLayer fn fid b.windows) ∨
    (b.walls ≠ [] ∧ L = mkWallsLayer fn fid b.walls) ∨
    (b.polygons ≠ [] ∧ L = mkSpacesLayer fn fid b.polygons) ∨
    (b.lines ≠ [] ∧ L = mkLineDoorsLayer fn fid b.lines) ∨
    (b.points ≠ [] ∧ L = mkConnectionsLayer fn fid b.points) := by
  simp only [mkGeometryLayers, List.mem_append] at h
  rcases h with ((((h | h) | h) | h) | h) | h <;>
    [skip; skip; skip; skip; skip; skip] <;>
    · revert h
      split
      · intro h; simp at h
      · intro h
        simp only [List.mem_singleton] at h
        subst h
        simp_all [List.isEmpty_iff]

/-- Inversion of a successful _process_geometry run: either no layers, or
the layers are exactly the bucket layers of the classification fold. -/
theorem process_geometry_ok_inv (st : ParserState) (fid : String) (doc : JValue)
    (layers : List Layer) (h : process_geometry st fid doc = .ok layers) :
    layers = [] ∨
    ∃ featsV feats bks floorNameV,
      pyIndexStr doc "features" = .ok featsV ∧
      pyIter featsV = .ok feats ∧
      feats.foldlM (classifyStep ((jLookup st.kinds fid).getD (.obj [])) fid) {} = .ok bks ∧
      layers = mkGeometryLayers (pyStrOf floorNameV) fid bks := by
  unfold process_geometry at h
  split at h
  · simp only [pure, Except.pure, Except.ok.injEq] at h
    exact Or.inl h.symm
  · obtain ⟨hasF, e1, h⟩ := bindOk h
    cases hasF with
    | false =>
        simp only [Bool.not_false, if_true, pure, Except.pure, Except.ok.injEq] at h
        exact Or.inl h.symm
    | true =>
        simp only [Bool.not_true, if_false] at h
        obtain ⟨featsV, e2, h⟩ := bindOk h
        split at h
        · simp only [pure, Except.pure, Except.ok.injEq] at h
          exact Or.inl h.symm
        · obtain ⟨u, e3, h⟩ := bindOk h
          obtain ⟨feats, e4, h⟩ := bindOk h
          obtain ⟨bks, e5, h⟩ := bindOk h
          obtain ⟨floorNameV, e6, h⟩ := bindOk h
          simp only [pure, Except.pure, Except.ok.injEq] at h
          exact Or.inr ⟨featsV, feats, bks, floorNameV, e2, e4, e5, h.symm⟩


/-- Forward evaluation of classify_feature from the outcomes of its
individual steps. -/
theorem classify_feature_steps (floor_kinds : JValue) (floor_id : String)
    (feat rawGeom properties details geom_id geom_kind nameV descV extIdV iconV : JValue)
    (geometry : QgsGeometry) (kl : String) (res : Option Bucket)
    (h1 : pyGet feat "geometry" .null = .ok rawGeom)
    (h2 : convert_geojson_geometry rawGeom = .ok (some geometry))
    (h3 : pyGet feat "properties" (.obj []) = .ok properties)
    (h4 : pyGet properties "details" (.obj []) = .ok details)
    (h5 : pyGet properties "id" (.str "") = .ok geom_id)
    (h6 : pyGetKeyJ floor_kinds geom_id (.str "unknown") = .ok geom_kind)
    (h7 : pyGet details "name" (.str "") = .ok nameV)
    (h8 : pyGet details "description" (.str "") = .ok descV)
    (h9 : pyGet details "externalId" (.str "") = .ok extIdV)
    (h10 : pyGet details "icon" (.str "") = .ok iconV)
    (h11 : pyLower geom_kind = .ok kl)
    (h12 : classify_core kl geom_kind geom_id geometry.gtype = .ok res) :
    classify_feature floor_kinds floor_id feat =
      .ok (res.map (fun b =>
        (b, ⟨geometry, mkGeomAttributes geom_id floor_id nameV descV extIdV iconV geom_kind⟩))) := by
  unfold classify_feature
  rw [h1]
  simp only [bind, Except.bind, h2, h3, h4, h5, h6, h7, h8, h9, h10, h11, h12]
  cases res <;> simp [pure, Except.pure]

/-! ## Claim C7 -/

/-- C7: every geometry feature whose resolved kind contains one of door,
entrance, entry, exit (case-insensitively) and does not contain object is
placed in the Doors bucket, regardless of the raw geometry type. -/
theorem C7_kind_door_goes_to_doors (floor_kinds : JValue) (floor_id : String)
    (feat rawGeom properties details geom_id nameV descV extIdV iconV : JValue)
    (geometry : QgsGeometry) (k : String)
    (h1 : pyGet feat "geometry" .null = .ok rawGeom)
    (h2 : convert_geojson_geometry rawGeom = .ok (some geometry))
    (h3 : pyGet feat "properties" (.obj []) = .ok properties)
    (h4 : pyGet properties "details" (.obj []) = .ok details)
    (h5 : pyGet properties "id" (.str "") = .ok geom_id)
    (h6 : pyGetKeyJ floor_kinds geom_id (.str "unknown") = .ok (.str k))
    (h7 : pyGet details "name" (.str "") = .ok nameV)
    (h8 : pyGet details "description" (.str "") = .ok descV)
    (h9 : pyGet details "externalId" (.str "") = .ok extIdV)
    (h10 : pyGet details "icon" (.str "") = .ok iconV)
    (hdoor : (containsSub (strLower k) "door" || containsSub (strLower k) "entrance" ||
      containsSub (strLower k) "entry" || containsSub (strLower k) "exit") = true)
    (hobj : containsSub (strLower k) "object" = false) :
    classify_feature floor_kinds floor_id feat =
      .ok (some (.doors,
        ⟨geometry, mkGeomAttributes geom_id floor_id nameV descV extIdV iconV (.str k)⟩)) := by
  have h12 : classify_core (strLower k) (.str k) geom_id geometry.gtype = .ok (some .doors) := by
    simp [classify_core, hobj, hdoor]
  have := classify_feature_steps floor_kinds floor_id feat rawGeom properties details geom_id
    (.str k) nameV descV extIdV iconV geometry (strLower k) (some .doors)
    h1 h2 h3 h4 h5 h6 h7 h8 h9 h10 rfl h12
  simpa using this

/-- Witness for C7: the concrete kind-door LineString feature lands in the
Doors bucket. -/
theorem C7_witness :
    classify_feature (.obj [("d1", .str "door")]) "f1" w7feat =
      .ok (some (.doors,
        ⟨.line [⟨0, 0⟩, ⟨1, 1⟩],
         mkGeomAttributes (.str "d1") "f1" (.str "") (.str "") (.str "") (.str "")
           (.str "door")⟩)) := by
  exact C7_kind_door_goes_to_doors (.obj [("d1", .str "door")]) "f1" w7feat
    (.obj [("type", .str "LineString"),
      ("coordinates", .arr [.arr [.num 0, .num 0], .arr [.num 1, .num 1]])])
    (.obj [("id", .str "d1")]) (.obj []) (.str "d1")
    (.str "") (.str "") (.str "") (.str "")
    (.line [⟨0, 0⟩, ⟨1, 1⟩]) "door"
    rfl rfl rfl rfl rfl rfl rfl rfl rfl rfl (by rfl) (by rfl)

/-! ## Claim C6 -/

/-- C6: a point-geometry feature whose id contains neither -p1 nor -p2 and
whose kind matches none of the object, door, window or wall rules goes to
the Connections bucket exactly when its kind contains stair, elevator,
escalator or lift (or a plural form), is exactly unknown, or contains poi;
otherwise it is discarded. -/
theorem C6_point_fallback (floor_kinds : JValue) (floor_id : String)
    (feat rawGeom properties details geom_id nameV descV extIdV iconV : JValue)
    (geometry : QgsGeometry) (k : String)
    (h1 : pyGet feat "geometry" .null = .ok rawGeom)
    (h2 : convert_geojson_geometry rawGeom = .ok (some geometry))
    (h3 : pyGet feat "properties" (.obj []) = .ok properties)
    (h4 : pyGet properties "details" (.obj []) = .ok details)
    (h5 : pyGet properties "id" (.str "") = .ok geom_id)
    (h6 : pyGetKeyJ floor_kinds geom_id (.str "unknown") = .ok (.str k))
    (h7 : pyGet details "name" (.str "") = .ok nameV)
    (h8 : pyGet details "description" (.str "") = .ok descV)
    (h9 : pyGet details "externalId" (.str "") = .ok extIdV)
    (h10 : pyGet details "icon" (.str "") = .ok iconV)
    (hpt : geometry.gtype = .pointGeometry)
    (hp1 : pyContains geom_id "-p1" = .ok false)
    (hp2 : pyContains geom_id "-p2" = .ok false)
    (hobj : containsSub (strLower k) "object" = false)
    (hdoor : (containsSub (strLower k) "door" || containsSub (strLower k) "entrance" ||
      containsSub (strLower k) "entry" || containsSub (strLower k) "exit") = false)
    (hwin : containsSub (strLower k) "window" = false)
    (hwall : containsSub (strLower k) "wall" = false) :
    classify_feature floor_kinds floor_id feat =
      .ok (if (containsSub (strLower k) "stair" || containsSub (strLower k) "elevator" ||
               containsSub (strLower k) "escalator" || containsSub (strLower k) "lift" ||
               containsSub (strLower k) "stairs" || containsSub (strLower k) "elevators") ||
              (k == "unknown" || containsSub (strLower k) "poi") then
        some (.points,
          ⟨geometry, mkGeomAttributes geom_id floor_id nameV descV extIdV iconV (.str k)⟩)
      else none) := by
  have h12 : classify_core (strLower k) (.str k) geom_id geometry.gtype =
      .ok (if (containsSub (strLower k) "stair" || containsSub (strLower k) "elevator" ||
               containsSub (strLower k) "escalator" || containsSub (strLower k) "lift" ||
               containsSub (strLower k) "stairs" || containsSub (strLower k) "elevators") ||
              (k == "unknown" || containsSub (strLower k) "poi") then
        some Bucket.points else none) := by
    rw [hpt]
    simp only [classify_core, hobj, hdoor, hwin, hwall, Bool.false_eq_true, if_false,
      bind, Except.bind, hp1, hp2, Bool.or_self, pure, Except.pure, pyEqStrVal]
  have := classify_feature_steps floor_kinds floor_id feat rawGeom properties details geom_id
    (.str k) nameV descV extIdV iconV geometry (strLower k) _
    h1 h2 h3 h4 h5 h6 h7 h8 h9 h10 rfl h12
  rw [this]
  cases hB : (containsSub (strLower k) "stair" || containsSub (strLower k) "elevator" ||
               containsSub (strLower k) "escalator" || containsSub (strLower k) "lift" ||
               containsSub (strLower k) "stairs" || containsSub (strLower k) "elevators") ||
              (k == "unknown" || containsSub (strLower k) "poi") <;> simp [hB]

/-- Witness for C6: with no kind entry the kind defaults to unknown and the
point goes to the Connections bucket. -/
theorem C6_witness :
    classify_feature (.obj []) "f1" w6feat =
      .ok (some (.points,
        ⟨.point ⟨3, 4⟩,
         mkGeomAttributes (.str "g1") "f1" (.str "") (.str "") (.str "") (.str "")
           (.str "unknown")⟩)) := by
  exact C6_point_fallback (.obj []) "f1" w6feat
    (.obj [("type", .str "Point"), ("coordinates", .arr [.num 3, .num 4])])
    (.obj [("id", .str "g1")]) (.obj []) (.str "g1")
    (.str "") (.str "") (.str "") (.str "")
    (.point ⟨3, 4⟩) "unknown"
    rfl rfl rfl rfl rfl rfl rfl rfl rfl rfl rfl (by rfl) (by rfl) (by rfl) (by rfl)
    (by rfl) (by rfl)

/-! ## Claims C2, C4, C5 -/

/-- C2 counterexample: a line feature whose id contains -p1 is not
discarded; it is bucketed into lines and emitted in the line_doors layer. -/
theorem C2_counterexample :
    classify_feature (.obj []) "f1" c2feat = .ok (some (.lines, c2fd)) ∧
    process_geometry {} "f1" c2doc = .ok [mkLineDoorsLayer "f1" "f1" [c2fd]] :=
  ⟨rfl, rfl⟩

/-- C2 amended: a line-geometry feature whose kind matches none of the
object, door, window or wall rules is always placed in the lines bucket
(emitted as the second Doors layer with style hint line_doors), regardless
of its id; the -p1 and -p2 discard applies only to point geometry. -/
theorem C2_line_fallback (floor_kinds : JValue) (floor_id : String)
    (feat rawGeom properties details geom_id nameV descV extIdV iconV : JValue)
    (geometry : QgsGeometry) (k : String)
    (h1 : pyGet feat "geometry" .null = .ok rawGeom)
    (h2 : convert_geojson_geometry rawGeom = .ok (some geometry))
    (h3 : pyGet feat "properties" (.obj []) = .ok properties)
    (h4 : pyGet properties "details" (.obj []) = .ok details)
    (h5 : pyGet properties "id" (.str "") = .ok geom_id)
    (h6 : pyGetKeyJ floor_kinds geom_id (.str "unknown") = .ok (.str k))
    (h7 : pyGet details "name" (.str "") = .ok nameV)
    (h8 : pyGet details "description" (.str "") = .ok descV)
    (h9 : pyGet details "externalId" (.str "") = .ok extIdV)
    (h10 : pyGet details "icon" (.str "") = .ok iconV)
    (hline : geometry.gtype = .lineGeometry)
    (hobj : containsSub (strLower k) "object" = false)
    (hdoor : (containsSub (strLower k) "door" || containsSub (strLower k) "entrance" ||
      containsSub (strLower k) "entry" || containsSub (strLower k) "exit") = false)
    (hwin : containsSub (strLower k) "window" = false)
    (hwall : containsSub (strLower k) "wall" = false) :
    classify_feature floor_kinds floor_id feat =
      .ok (some (.lines,
        ⟨geometry, mkGeomAttributes geom_id floor_id nameV descV extIdV iconV (.str k)⟩)) := by
  have h12 : classify_core (strLower k) (.str k) geom_id geometry.gtype = .ok (some .lines) := by
    rw [hline]
    simp [classify_core, hobj, hdoor, hwin, hwall]
  have := classify_feature_steps floor_kinds floor_id feat rawGeom properties details geom_id
    (.str k) nameV descV extIdV iconV geometry (strLower k) (some .lines)
    h1 h2 h3 h4 h5 h6 h7 h8 h9 h10 rfl h12
  simpa using this


/-- Witness for C2 (amended): the concrete -p1 line feature goes to the
lines bucket. -/
theorem C2_witness :
    classify_feature (.obj []) "f1" c2feat = .ok (some (.lines, c2fd)) := by
  exact C2_line_fallback (.obj []) "f1" c2feat
    (.obj [("type", .str "LineString"),
      ("coordinates", .arr [.arr [.num 0, .num 0], .arr [.num 1, .num 1]])])
    (.obj [("id", .str "x-p1")]) (.obj []) (.str "x-p1")
    (.str "") (.str "") (.str "") (.str "")
    (.line [⟨0, 0⟩, ⟨1, 1⟩]) "unknown"
    rfl rfl rfl rfl rfl rfl rfl rfl rfl rfl rfl
    (by rfl) (by rfl) (by rfl) (by rfl)

/-- C4: a geometry feature whose resolved kind contains object
(case-insensitively) is discarded before bucketing, and no feature of any
emitted geometry layer carries a kind whose lower-casing contains object —
for any kind-table contents. -/
theorem C4_object_always_discarded :
    (∀ (floor_kinds : JValue) (floor_id : String)
       (feat rawGeom properties details geom_id nameV descV extIdV iconV : JValue)
       (geometry : QgsGeometry) (k : String),
       pyGet feat "geometry" .null = .ok rawGeom →
       convert_geojson_geometry rawGeom = .ok (some geometry) →
       pyGet feat "properties" (.obj []) = .ok properties →
       pyGet properties "details" (.obj []) = .ok details →
       pyGet properties "id" (.str "") = .ok geom_id →
       pyGetKeyJ floor_kinds geom_id (.str "unknown") = .ok (.str k) →
       pyGet details "name" (.str "") = .ok nameV →
       pyGet details "description" (.str "") = .ok descV →
       pyGet details "externalId" (.str "") = .ok extIdV →
       pyGet details "icon" (.str "") = .ok iconV →
       containsSub (strLower k) "object" = true →
       classify_feature floor_kinds floor_id feat = .ok none) ∧
    (∀ (st : ParserState) (fid : String) (doc : JValue) (layers : List Layer),
       process_geometry st fid doc = .ok layers →
       ∀ L ∈ layers, ∀ fd ∈ L.features, ∀ kv kl,
         jLookup fd.attributes "kind" = some kv →
         pyLower kv = .ok kl →
         containsSub kl "object" = false) := by
  constructor
  · intro floor_kinds floor_id feat rawGeom properties details geom_id nameV descV extIdV
      iconV geometry k h1 h2 h3 h4 h5 h6 h7 h8 h9 h10 hobj
    have h12 : classify_core (strLower k) (.str k) geom_id geometry.gtype = .ok none := by
      simp [classify_core, hobj]
    have := classify_feature_steps floor_kinds floor_id feat rawGeom properties details geom_id
      (.str k) nameV descV extIdV iconV geometry (strLower k) none
      h1 h2 h3 h4 h5 h6 h7 h8 h9 h10 rfl h12
    simpa using this
  · intro st fid doc layers h L hL fd hfd kv kl hkv hkl
    rcases process_geometry_ok_inv st fid doc layers h with rfl |
      ⟨featsV, feats, bks, fnv, e2, e4, e5, rfl⟩
    · simp at hL
    · have hinv := classify_fold_inv
        (fun _ fd => ∀ kv kl, jLookup fd.attributes "kind" = some kv →
          pyLower kv = .ok kl → containsSub kl "object" = false)
        ((jLookup st.kinds fid).getD (.obj [])) fid feats {} bks e5
        (by intro bk fd hfd; cases bk <;> simp [bucketList] at hfd)
        (by intro feat b fd hc kv kl hkv hkl
            obtain ⟨gid, kd, nm, ds, ex, ic, kl0, hattr, hlow, hcore⟩ :=
              classify_feature_some_inv _ _ _ _ _ hc
            rw [hattr, jLookup_geomAttrs_kind] at hkv
            obtain rfl := Option.some.inj hkv
            rw [hlow] at hkl
            obtain rfl := Except.ok.inj hkl
            exact classify_core_some_object _ _ _ _ _ hcore)
      rcases mem_mkGeometryLayers L _ fid bks hL with
        ⟨_, rfl⟩ | ⟨_, rfl⟩ | ⟨_, rfl⟩ | ⟨_, rfl⟩ | ⟨_, rfl⟩ | ⟨_, rfl⟩
      · exact hinv .doors fd hfd kv kl hkv hkl
      · exact hinv .windows fd hfd kv kl hkv hkl
      · exact hinv .walls fd hfd kv kl hkv hkl
      · exact hinv .polygons fd hfd kv kl hkv hkl
      · exact hinv .lines fd hfd kv kl hkv hkl
      · exact hinv .points fd hfd kv kl hkv hkl

/-- C5 counterexample: with a kind table mapping the id to door, a point
feature whose id contains -p1 is not discarded — it is bucketed into doors
and emitted in the Doors layer. -/
theorem C5_counterexample :
    classify_feature c5kinds "f1" c5feat = .ok (some (.doors, c5fd)) ∧
    process_geometry c5st "f1" c5doc = .ok [mkDoorsLayer "f1" "f1" [c5fd]] :=
  ⟨rfl, rfl⟩


/-- C5 amended: a point feature whose id contains -p1 or -p2 never reaches
the Connections layer, for any kind table; and it is fully discarded when
additionally its kind matches none of the object, door, window or wall
rules. -/
theorem C5_nav_points_never_connections :
    (∀ (st : ParserState) (fid : String) (doc : JValue) (layers : List Layer),
       process_geometry st fid doc = .ok layers →
       ∀ L ∈ layers, L.ltype = "point" →
       ∀ fd ∈ L.features, ∀ gid, jLookup fd.attributes "geometry_id" = some gid →
         pyContains gid "-p1" = .ok false ∧ pyContains gid "-p2" = .ok false) ∧
    (∀ (floor_kinds : JValue) (floor_id : String)
       (feat rawGeom properties details geom_id nameV descV extIdV iconV : JValue)
       (geometry : QgsGeometry) (k : String) (p1 p2 : Bool),
       pyGet feat "geometry" .null = .ok rawGeom →
       convert_geojson_geometry rawGeom = .ok (some geometry) →
       pyGet feat "properties" (.obj []) = .ok properties →
       pyGet properties "details" (.obj []) = .ok details →
       pyGet properties "id" (.str "") = .ok geom_id →
       pyGetKeyJ floor_kinds geom_id (.str "unknown") = .ok (.str k) →
       pyGet details "name" (.str "") = .ok nameV →
       pyGet details "description" (.str "") = .ok descV →
       pyGet details "externalId" (.str "") = .ok extIdV →
       pyGet details "icon" (.str "") = .ok iconV →
       geometry.gtype = .pointGeometry →
       pyContains geom_id "-p1" = .ok p1 →
       pyContains geom_id "-p2" = .ok p2 →
       (p1 || p2) = true →
       containsSub (strLower k) "object" = false →
       (containsSub (strLower k) "door" || containsSub (strLower k) "entrance" ||
        containsSub (strLower k) "entry" || containsSub (strLower k) "exit") = false →
       containsSub (strLower k) "window" = false →
       containsSub (strLower k) "wall" = false →
       classify_feature floor_kinds floor_id feat = .ok none) := by
  constructor
  · intro st fid doc layers h L hL hlt fd hfd gid hgid
    rcases process_geometry_ok_inv st fid doc layers h with rfl |
      ⟨featsV, feats, bks, fnv, e2, e4, e5, rfl⟩
    · simp at hL
    · have hinv := classify_fold_inv
        (fun bk fd => bk = .points → ∀ gid, jLookup fd.attributes "geometry_id" = some gid →
          pyContains gid "-p1" = .ok false ∧ pyContains gid "-p2" = .ok false)
        ((jLookup st.kinds fid).getD (.obj [])) fid feats {} bks e5
        (by intro bk fd hfd; cases bk <;> simp [bucketList] at hfd)
        (by intro feat b fd hc hb gid hgid
            subst hb
            obtain ⟨gid0, kd, nm, ds, ex, ic, kl0, hattr, hlow, hcore⟩ :=
              classify_feature_some_inv _ _ _ _ _ hc
            rw [hattr, jLookup_geomAttrs_gid] at hgid
            obtain rfl := Option.some.inj hgid
            exact (classify_core_points_inv _ _ _ _ hcore).2)
      rcases mem_mkGeometryLayers L _ fid bks hL with
        ⟨_, rfl⟩ | ⟨_, rfl⟩ | ⟨_, rfl⟩ | ⟨_, rfl⟩ | ⟨_, rfl⟩ | ⟨_, rfl⟩
      · simp [mkDoorsLayer] at hlt
      · simp [mkWindowsLayer] at hlt
      · simp [mkWallsLayer] at hlt
      · simp [mkSpacesLayer] at hlt
      · simp [mkLineDoorsLayer] at hlt
      · exact hinv .points fd hfd rfl gid hgid
  · intro floor_kinds floor_id feat rawGeom properties details geom_id nameV descV extIdV
      iconV geometry k p1 p2 h1 h2 h3 h4 h5 h6 h7 h8 h9 h10 hpt hp1 hp2 hOr hobj hdoor hwin hwall
    have h12 : classify_core (strLower k) (.str k) geom_id geometry.gtype = .ok none := by
      rw [hpt]
      simp only [classify_core, hobj, hdoor, hwin, hwall, Bool.false_eq_true, if_false,
        bind, Except.bind, hp1, hp2, hOr, if_true, pure, Except.pure]
    have := classify_feature_steps floor_kinds floor_id feat rawGeom properties details geom_id
      (.str k) nameV descV extIdV iconV geometry (strLower k) none
      h1 h2 h3 h4 h5 h6 h7 h8 h9 h10 rfl h12
    simpa using this


/-- Witness for C5 (amended): the unknown-kind point in the concrete
Connections layer has an id free of -p1 and -p2, and the concrete -p1
point with no matching kind rule is fully discarded. -/
theorem C5_witness :
    (pyContains (.str "g1") "-p1" = .ok false ∧ pyContains (.str "g1") "-p2" = .ok false) ∧
    classify_feature (.obj []) "f1"
      (.obj [("geometry", .obj [("type", .str "Point"),
               ("coordinates", .arr [.num 0, .num 0])]),
             ("properties", .obj [("id", .str "x-p1")])]) = .ok none := by
  constructor
  · exact C5_nav_points_never_connections.1 {} "f1" w6doc
      [mkConnectionsLayer "f1" "f1" [w6fd]] rfl
      (mkConnectionsLayer "f1" "f1" [w6fd]) (by simp) rfl
      w6fd (by simp [mkConnectionsLayer]) (.str "g1") rfl
  · exact C5_nav_points_never_connections.2 (.obj []) "f1"
      (.obj [("geometry", .obj [("type", .str "Point"),
               ("coordinates", .arr [.num 0, .num 0])]),
             ("properties", .obj [("id", .str "x-p1")])])
      (.obj [("type", .str "Point"), ("coordinates", .arr [.num 0, .num 0])])
      (.obj [("id", .str "x-p1")]) (.obj []) (.str "x-p1")
      (.str "") (.str "") (.str "") (.str "")
      (.point ⟨0, 0⟩) "unknown" true false
      rfl rfl rfl rfl rfl rfl rfl rfl rfl rfl rfl (by rfl) (by rfl) (by rfl)
      (by rfl) (by rfl) (by rfl) (by rfl)

/-- Witness for C4: the concrete Object-kind feature is discarded, and the
feature of the concrete Connections layer has a kind free of object. -/
theorem C4_witness :
    classify_feature (.obj [("o1", .str "Object")]) "f1" c4feat = .ok none ∧
    containsSub "unknown" "object" = false := by
  constructor
  · exact C4_object_always_discarded.1 (.obj [("o1", .str "Object")]) "f1" c4feat
      (.obj [("type", .str "Point"), ("coordinates", .arr [.num 5, .num 6])])
      (.obj [("id", .str "o1")]) (.obj []) (.str "o1")
      (.str "") (.str "") (.str "") (.str "")
      (.point ⟨5, 6⟩) "Object"
      rfl rfl rfl rfl rfl rfl rfl rfl rfl rfl (by rfl)
  · exact C4_object_always_discarded.2 {} "f1" w6doc
      [mkConnectionsLayer "f1" "f1" [w6fd]] rfl
      (mkConnectionsLayer "f1" "f1" [w6fd]) (by simp)
      w6fd (by simp [mkConnectionsLayer]) (.str "unknown") "unknown" rfl rfl

/-! ## Claim C9 -/

/-- C9 counterexample: on the JSON number 5 (a truthy non-iterable), the
membership test before the try block raises, so the converter returns an
error instead of null. -/
theorem C9_counterexample :
    convert_geojson_geometry (.num 5) =
      .error "TypeError: argument of type is not iterable" := rfl


/-- C9 amended: the converter returns ok (and null on a missing,
unrecognized type or too-short coordinates) for falsy values and for
dicts, lists and strings; on a truthy number or True the membership test
raises before the try block and the error escapes. -/
theorem C9_convert_total_on_safe_inputs :
    (∀ g : JValue, g.isFalsy = true → convert_geojson_geometry g = .ok none) ∧
    (∀ g : JValue, isMembershipSafe g = true → ∃ r, convert_geojson_geometry g = .ok r) ∧
    (∀ g : JValue, g.isFalsy = false → isMembershipSafe g = false →
      ∃ e, convert_geojson_geometry g = .error e) ∧
    (∀ fs, jLookup fs "type" = none → convert_geojson_geometry (.obj fs) = .ok none) ∧
    (∀ fs tv, jLookup fs "type" = some tv →
      pyEqStrVal tv "Point" = false → pyEqStrVal tv "LineString" = false →
      pyEqStrVal tv "Polygon" = false → pyEqStrVal tv "MultiPoint" = false →
      pyEqStrVal tv "MultiLineString" = false → pyEqStrVal tv "MultiPolygon" = false →
      convert_geojson_geometry (.obj fs) = .ok none) ∧
    (∀ fs cs, jLookup fs "type" = some (.str "Point") →
      jLookup fs "coordinates" = some (.arr cs) → cs.length < 2 →
      convert_geojson_geometry (.obj fs) = .ok none) := by
  have hany : ∀ (fs : List (String × JValue)) tv, jLookup fs "type" = some tv →
      (fs.any (fun p => p.1 == "type")) = true := by
    intro fs tv h
    simp only [jLookup, Option.map_eq_some'] at h
    obtain ⟨p, hp, hv⟩ := h
    have hmem := List.mem_of_find?_eq_some hp
    have hpred := List.find?_some hp
    exact List.any_eq_true.mpr ⟨p, hmem, hpred⟩
  refine ⟨?_, ?_, ?_, ?_, ?_, ?_⟩
  · intro g h
    unfold convert_geojson_geometry
    simp [h, pure, Except.pure]
  · intro g h
    by_cases hf : g.isFalsy = true
    · exact ⟨none, by unfold convert_geojson_geometry; simp [hf, pure, Except.pure]⟩
    · have hok : ∃ b, pyContains g "type" = .ok b := by
        cases g <;> simp_all [isMembershipSafe, pyContains]
      obtain ⟨b, hb⟩ := hok
      unfold convert_geojson_geometry
      rw [Bool.not_eq_true] at hf
      simp only [hf, Bool.false_eq_true, if_false, hb, bind, Except.bind]
      cases b with
      | false => exact ⟨none, rfl⟩
      | true =>
          simp only [Bool.not_true, if_false]
          cases hbody : convertBodyE g with
          | ok r => exact ⟨r, rfl⟩
          | error e => exact ⟨none, rfl⟩
  · intro g h1 h2
    cases g with
    | null => simp [JValue.isFalsy] at h1
    | bool b =>
        cases b with
        | false => simp [JValue.isFalsy] at h1
        | true =>
            refine ⟨"TypeError: argument of type is not iterable", ?_⟩
            unfold convert_geojson_geometry
            simp [JValue.isFalsy, pyContains, bind, Except.bind]
    | num n =>
        refine ⟨"TypeError: argument of type is not iterable", ?_⟩
        unfold convert_geojson_geometry
        simp only [JValue.isFalsy] at h1
        simp [JValue.isFalsy, h1, pyContains, bind, Except.bind]
    | str s => simp [isMembershipSafe] at h2
    | arr xs => simp [isMembershipSafe] at h2
    | obj fs => simp [isMembershipSafe] at h2
  · intro fs h
    by_cases hf : (JValue.obj fs).isFalsy = true
    · unfold convert_geojson_geometry; simp [hf, pure, Except.pure]
    · have hnone : (fs.any (fun p => p.1 == "type")) = false := by
        simp only [jLookup, Option.map_eq_none', List.find?_eq_none] at h
        simp only [List.any_eq_false]
        intro p hp
        exact h p hp
      unfold convert_geojson_geometry
      rw [Bool.not_eq_true] at hf
      simp [hf, pyContains, hnone, bind, Except.bind, pure, Except.pure]
  · intro fs tv h hP hLS hPo hMP hMLS hMPo
    have hfne : (JValue.obj fs).isFalsy = false := by
      cases fs with
      | nil => simp [jLookup] at h
      | cons a l => simp [JValue.isFalsy]
    have htv : pyIndexStr (.obj fs) "type" = .ok tv := by simp [pyIndexStr, h]
    unfold convert_geojson_geometry
    simp only [hfne, Bool.false_eq_true, if_false, pyContains, hany fs tv h, bind, Except.bind,
      Bool.not_true, if_false]
    have hbody : convertBodyE (.obj fs) = .ok none := by
      unfold convertBodyE
      simp [htv, bind, Except.bind, pyGet, hP, hLS, hPo, hMP, hMLS, hMPo, pure, Except.pure]
    simp [hbody, pure, Except.pure]
  · intro fs cs h hc hlen
    have hfne : (JValue.obj fs).isFalsy = false := by
      cases fs with
      | nil => simp [jLookup] at h
      | cons a l => simp [JValue.isFalsy]
    have htv : pyIndexStr (.obj fs) "type" = .ok (.str "Point") := by simp [pyIndexStr, h]
    have hco : pyGet (.obj fs) "coordinates" (.arr []) = .ok (.arr cs) := by
      simp [pyGet, hc]
    unfold convert_geojson_geometry
    simp only [hfne, Bool.false_eq_true, if_false, pyContains, hany fs _ h, bind, Except.bind,
      Bool.not_true, if_false]
    have hbody : convertBodyE (.obj fs) = .ok none := by
      unfold convertBodyE
      simp [htv, hco, bind, Except.bind, pyEqStrVal, pyLen, Nat.not_le.mpr hlen,
        pure, Except.pure]
    simp [hbody, pure, Except.pure]


/-- Witness for C9 (amended): concrete safe inputs return ok and null as
described, and the concrete truthy boolean raises. -/
theorem C9_witness :
    convert_geojson_geometry .null = .ok none ∧
    (∃ r, convert_geojson_geometry (.str "typeless") = .ok r) ∧
    (∃ e, convert_geojson_geometry (.bool true) = .error e) ∧
    convert_geojson_geometry (.obj [("kind", .str "Point")]) = .ok none ∧
    convert_geojson_geometry (.obj [("type", .str "Circle")]) = .ok none ∧
    convert_geojson_geometry
      (.obj [("type", .str "Point"), ("coordinates", .arr [.num 7])]) = .ok none := by
  refine ⟨?_, ?_, ?_, ?_, ?_, ?_⟩
  · exact C9_convert_total_on_safe_inputs.1 .null rfl
  · exact C9_convert_total_on_safe_inputs.2.1 (.str "typeless") rfl
  · exact C9_convert_total_on_safe_inputs.2.2.1 (.bool true) rfl rfl
  · exact C9_convert_total_on_safe_inputs.2.2.2.1 [("kind", .str "Point")] rfl
  · exact C9_convert_total_on_safe_inputs.2.2.2.2.1 [("type", .str "Circle")] (.str "Circle")
      rfl rfl rfl rfl rfl rfl rfl
  · exact C9_convert_total_on_safe_inputs.2.2.2.2.2 [("type", .str "Point"),
      ("coordinates", .arr [.num 7])] [.num 7] rfl rfl (by decide)

/-! ## Claims C8 and C10 -/

/-- C10: every feature emitted for a location carries anchor_count equal to
the string form of the full geometryAnchors length (dangling anchors
included), not the number of emitted features; the concrete two-anchor
location with one dangling anchor emits one feature with anchor_count 2. -/
theorem C10_anchor_count_counts_all_anchors :
    (∀ (st : ParserState) (loc : JValue) (anchors : List JValue) (fds : List FeatureData),
       pyGet loc "geometryAnchors" (.arr []) = .ok (.arr anchors) →
       process_one_location st loc = .ok fds →
       ∀ fd ∈ fds, jLookup fd.attributes "anchor_count" =
         some (.str (toString anchors.length))) ∧
    process_one_location c10st c10loc = .ok [c10fd] := by
  constructor
  · intro st loc anchors fds hga h fd hfd
    unfold process_one_location at h
    obtain ⟨lid, e1, h⟩ := bindOk h
    obtain ⟨d0, e2, h⟩ := bindOk h
    obtain ⟨ln, e3, h⟩ := bindOk h
    obtain ⟨ga, e4, h⟩ := bindOk h
    rw [hga] at e4
    obtain rfl := Except.ok.inj e4
    split at h
    · simp only [pure, Except.pure, Except.ok.injEq] at h
      subst h
      simp at hfd
    · obtain ⟨anchorList, e5, h⟩ := bindOk h
      obtain rfl := Except.ok.inj e5
      obtain ⟨geometries, e6, h⟩ := bindOk h
      split at h
      · simp only [pure, Except.pure, Except.ok.injEq] at h
        subst h
        simp at hfd
      · obtain ⟨details, e7, h⟩ := bindOk h
        obtain ⟨catsV, e8, h⟩ := bindOk h
        obtain ⟨cats, e9, h⟩ := bindOk h
        obtain ⟨category_names, e10, h⟩ := bindOk h
        obtain ⟨catStr, e11, h⟩ := bindOk h
        obtain ⟨anchorLen, e12, h⟩ := bindOk h
        have hlen : anchorLen = anchors.length := by
          have : pyLen (.arr anchors) = .ok anchors.length := rfl
          rw [this] at e12
          exact (Except.ok.inj e12).symm
        subst hlen
        obtain ⟨idv, e13, h⟩ := bindOk h
        obtain ⟨nameV, e14, h⟩ := bindOk h
        obtain ⟨descV, e15, h⟩ := bindOk h
        obtain ⟨extV, e16, h⟩ := bindOk h
        obtain ⟨iconV, e17, h⟩ := bindOk h
        simp only [pure, Except.pure, Except.ok.injEq] at h
        subst h
        obtain ⟨t, ht, rfl⟩ := List.mem_map.mp hfd
        rfl
  · rfl


/-- When every anchor resolves, the resolution fold succeeds and collects
exactly one triple per anchor. -/
theorem anchors_fold_resolvable (st : ParserState) (anchors : List JValue)
    (hres : ∀ a ∈ anchors, ∃ gid fid g, pyGet a "geometryId" .null = .ok gid ∧
      pyGet a "floorId" .null = .ok fid ∧ find_geometry_by_id st gid fid = .ok (some g)) :
    ∀ acc, ∃ res, anchors.foldlM (anchorStep st) acc = .ok (acc ++ res) ∧
      res.length = anchors.length := by
  induction anchors with
  | nil => intro acc; exact ⟨[], by simp [List.foldlM, pure, Except.pure], rfl⟩
  | cons a l ih =>
      intro acc
      obtain ⟨gid, fid, g, h1, h2, h3⟩ := hres a (List.mem_cons_self a l)
      have hstep : anchorStep st acc a = .ok (acc ++ [(fid, gid, g)]) := by
        unfold anchorStep
        rw [h1]
        simp [bind, Except.bind, h2, h3, pure, Except.pure]
      obtain ⟨res, hfold, hlen⟩ := ih (fun x hx => hres x (List.mem_cons_of_mem a hx))
        (acc ++ [(fid, gid, g)])
      refine ⟨(fid, gid, g) :: res, ?_, by simp [hlen]⟩
      simp only [List.foldlM, hstep, bind, Except.bind]
      rw [hfold]
      simp


/-- C8: a location whose anchors all resolve emits exactly one point
feature per anchor, each carrying anchor_count equal to the string form of
the anchor count; a location with falsy geometryAnchors emits nothing; the
concrete two-floor two-anchor location yields two per-floor Locations
layers, one feature each, both with anchor_count 2. -/
theorem C8_all_anchors_resolvable :
    (∀ (st : ParserState) (loc : JValue) (anchors : List JValue) (fds : List FeatureData),
       pyGet loc "geometryAnchors" (.arr []) = .ok (.arr anchors) →
       anchors ≠ [] →
       (∀ a ∈ anchors, ∃ gid fid g, pyGet a "geometryId" .null = .ok gid ∧
         pyGet a "floorId" .null = .ok fid ∧ find_geometry_by_id st gid fid = .ok (some g)) →
       process_one_location st loc = .ok fds →
       fds.length = anchors.length ∧
       ∀ fd ∈ fds, jLookup fd.attributes "anchor_count" =
           some (.str (toString anchors.length)) ∧
         fd.geometry.gtype = .pointGeometry) ∧
    (∀ (st : ParserState) (loc lid d0 nv av : JValue),
       pyGet loc "id" (.str "unknown") = .ok lid →
       pyGet loc "details" (.obj []) = .ok d0 →
       pyGet d0 "name" (.str "Unnamed") = .ok nv →
       pyGet loc "geometryAnchors" (.arr []) = .ok av →
       av.isFalsy = true →
       process_one_location st loc = .ok []) ∧
    process_locations c8st = .ok [c8layerA, c8layerB] := by
  refine ⟨?_, ?_, rfl⟩
  · intro st loc anchors fds hga hne hres h
    unfold process_one_location at h
    obtain ⟨lid, e1, h⟩ := bindOk h
    obtain ⟨d0, e2, h⟩ := bindOk h
    obtain ⟨ln, e3, h⟩ := bindOk h
    obtain ⟨ga, e4, h⟩ := bindOk h
    rw [hga] at e4
    obtain rfl := Except.ok.inj e4
    split at h
    · rename_i hfal
      exfalso
      apply hne
      simpa [JValue.isFalsy, List.isEmpty_iff] using hfal
    · obtain ⟨anchorList, e5, h⟩ := bindOk h
      have e5x : pyIter (.arr anchors) = .ok anchors := rfl
      rw [e5x] at e5
      obtain rfl := Except.ok.inj e5
      obtain ⟨geometries, e6, h⟩ := bindOk h
      obtain ⟨res, hfold, hlen⟩ := anchors_fold_resolvable st anchors hres []
      rw [hfold] at e6
      obtain rfl := Except.ok.inj e6
      split at h
      · rename_i hemp
        exfalso
        have hre : res = [] := by simpa [List.isEmpty_iff] using hemp
        have : anchors.length = 0 := by rw [← hlen, hre]; rfl
        exact hne (List.length_eq_zero.mp this)
      · obtain ⟨details, e7, h⟩ := bindOk h
        obtain ⟨catsV, e8, h⟩ := bindOk h
        obtain ⟨cats, e9, h⟩ := bindOk h
        obtain ⟨category_names, e10, h⟩ := bindOk h
        obtain ⟨catStr, e11, h⟩ := bindOk h
        obtain ⟨anchorLen, e12, h⟩ := bindOk h
        have hl : anchorLen = anchors.length := by
          have e12x : pyLen (.arr anchors) = .ok anchors.length := rfl
          rw [e12x] at e12
          exact (Except.ok.inj e12).symm
        subst hl
        obtain ⟨idv, e13, h⟩ := bindOk h
        obtain ⟨nameV, e14, h⟩ := bindOk h
        obtain ⟨descV, e15, h⟩ := bindOk h
        obtain ⟨extV, e16, h⟩ := bindOk h
        obtain ⟨iconV, e17, h⟩ := bindOk h
        simp only [pure, Except.pure, Except.ok.injEq] at h
        subst h
        constructor
        · simp [List.length_map, hlen]
        · intro fd hfd
          obtain ⟨t, ht, rfl⟩ := List.mem_map.mp hfd
          refine ⟨rfl, ?_⟩
          show (if t.2.2.gtype = QgsGeomType.pointGeometry then t.2.2
            else t.2.2.centroid).gtype = QgsGeomType.pointGeometry
          by_cases hq : t.2.2.gtype = QgsGeomType.pointGeometry
          · rw [if_pos hq]
            exact hq
          · rw [if_neg hq]
            rfl
  · intro st loc lid d0 nv av h1 h2 h3 h4 h5
    unfold process_one_location
    rw [h1]
    simp [bind, Except.bind, h2, h3, h4, h5, pure, Except.pure]


/-- Witness for C8: the concrete two-anchor location emits two point
features with anchor_count 2, and a concrete empty-anchors location emits
nothing. -/
theorem C8_witness :
    (([c8fdA, c8fdB] : List FeatureData).length = 2 ∧
      ∀ fd ∈ ([c8fdA, c8fdB] : List FeatureData),
        jLookup fd.attributes "anchor_count" = some (.str "2") ∧
        fd.geometry.gtype = .pointGeometry) ∧
    process_one_location c8st (.obj [("id", .str "empty"), ("geometryAnchors", .arr [])]) =
      .ok [] := by
  constructor
  · exact C8_all_anchors_resolvable.1 c8st c8loc
      [.obj [("geometryId", .str "ga"), ("floorId", .str "fa")],
       .obj [("geometryId", .str "gb"), ("floorId", .str "fb")]]
      [c8fdA, c8fdB] rfl (by simp)
      (by
        intro a ha
        simp only [List.mem_cons, List.not_mem_nil, or_false] at ha
        rcases ha with rfl | rfl
        · exact ⟨.str "ga", .str "fa", .point ⟨1, 2⟩, rfl, rfl, rfl⟩
        · exact ⟨.str "gb", .str "fb", .polygon [[⟨0, 0⟩, ⟨2, 0⟩, ⟨2, 2⟩]], rfl, rfl, rfl⟩)
      rfl
  · exact C8_all_anchors_resolvable.2.1 c8st
      (.obj [("id", .str "empty"), ("geometryAnchors", .arr [])])
      (.str "empty") (.obj []) (.str "Unnamed") (.arr [])
      rfl rfl rfl rfl rfl

/-! ## Claim C1 -/

/-- A fold whose body fails on some listed element independently of the
accumulated state fails as a whole. -/
theorem foldlM_frozen_error {α β : Type} (f : β → α → Except String β) (x : α)
    (hbad : ∀ s, ∃ e, f s x = .error e) :
    ∀ (l : List α) (s0 : β), x ∈ l → ∃ e, l.foldlM f s0 = .error e := by
  intro l
  induction l with
  | nil => intro s0 hx; simp at hx
  | cons a t ih =>
      intro s0 hx
      rcases List.mem_cons.mp hx with rfl | hxt
      · obtain ⟨e, he⟩ := hbad s0
        exact ⟨e, by simp [List.foldlM, he, bind, Except.bind]⟩
      · cases hfa : f s0 a with
        | error e => exact ⟨e, by simp [List.foldlM, hfa, bind, Except.bind]⟩
        | ok s1 =>
            obtain ⟨e, he⟩ := ih s1 hxt
            exact ⟨e, by simp [List.foldlM, hfa, bind, Except.bind, he]⟩


/-- An erroring first step makes the whole zip parse error. -/
theorem parse_err_step1 (entries : List ZipEntry) (e : String)
    (h : stepManifest entries {} = .error e) : parse_mvf_zip entries = .error e := by
  simp [parse_mvf_zip, bind, Except.bind, h]


/-- C1 counterexample: a malformed locations.json aborts the whole package
parse with a wrapped error, although the same package without it parses to
the very layers the claim says should survive. -/
theorem C1_counterexample :
    parse_mvf_package "venue.zip" (.ok c1entsBad) =
      .error "Failed to parse MVF v3 package: Expecting value" ∧
    parse_mvf_package "venue.zip" (.ok c1entsGood) = .ok [c1connLayer] :=
  ⟨rfl, rfl⟩


/-- C1 amended: a json.load failure of any core document (manifest,
floors, kinds, geometry, or the selected locations file) is fatal to the
whole parse; only an extension document's failure is caught and skipped,
as the concrete package with a malformed extra.geojson shows. -/
theorem C1_core_doc_parse_failure_fatal :
    (∀ (entries : List ZipEntry) (name msg : String),
       name ∈ coreDocNames (entries.map (fun e => e.name)) →
       lookupContent entries name = .error msg →
       (parse_mvf_zip entries).isOk = false) ∧
    parse_mvf_zip c1entsExt = .ok [c1connLayer] := by
  constructor
  · intro entries name msg hmem hbad
    simp only [coreDocNames, List.mem_append] at hmem
    rcases hmem with ((((hm | hm) | hm) | hm) | hm)
    · -- manifest
      split at hm
      · rename_i hc
        simp only [List.mem_singleton] at hm
        subst hm
        have h1 : stepManifest entries {} = .error msg := by
          unfold stepManifest
          rw [if_pos hc]
          simp [hbad, bind, Except.bind]
        simp [parse_mvf_zip, bind, Except.bind, h1, Except.isOk, Except.toBool]
      · simp at hm
    · -- floors
      split at hm
      · rename_i hc
        simp only [List.mem_singleton] at hm
        subst hm
        cases h1 : stepManifest entries {} with
        | error e => simp [parse_mvf_zip, bind, Except.bind, h1, Except.isOk, Except.toBool]
        | ok st1 =>
            have h2 : stepFloors entries st1 = .error msg := by
              unfold stepFloors
              rw [if_pos hc]
              simp [hbad, bind, Except.bind]
            simp [parse_mvf_zip, bind, Except.bind, h1, h2, Except.isOk, Except.toBool]
      · simp at hm
    · -- kinds
      cases h1 : stepManifest entries {} with
      | error e => simp [parse_mvf_zip, bind, Except.bind, h1, Except.isOk, Except.toBool]
      | ok st1 =>
          cases h2 : stepFloors entries st1 with
          | error e => simp [parse_mvf_zip, bind, Except.bind, h1, h2, Except.isOk, Except.toBool]
          | ok p2 =>
              obtain ⟨st2, fl⟩ := p2
              obtain ⟨e, h3⟩ := foldlM_frozen_error
                (fun st kf => do
                  let kd ← lookupContent entries kf
                  pure { st with kinds := setAssoc st.kinds (extract_floor_id_from_filename kf) kd })
                name (fun s => ⟨msg, by simp [hbad, bind, Except.bind]⟩)
                (kindsFileNames (entries.map (fun e => e.name))) st2 hm
              have h3' : stepKinds entries st2 = .error e := h3
              simp [parse_mvf_zip, bind, Except.bind, h1, h2, h3', Except.isOk, Except.toBool]
    · -- geometry
      cases h1 : stepManifest entries {} with
      | error e => simp [parse_mvf_zip, bind, Except.bind, h1, Except.isOk, Except.toBool]
      | ok st1 =>
          cases h2 : stepFloors entries st1 with
          | error e => simp [parse_mvf_zip, bind, Except.bind, h1, h2, Except.isOk, Except.toBool]
          | ok p2 =>
              obtain ⟨st2, fl⟩ := p2
              cases h3 : stepKinds entries st2 with
              | error e => simp [parse_mvf_zip, bind, Except.bind, h1, h2, h3, Except.isOk, Except.toBool]
              | ok st3 =>
                  obtain ⟨e, h4⟩ := foldlM_frozen_error
                    (fun (p : ParserState × List Layer) gf => do
                      let floorId := extract_floor_id_from_filename gf
                      let gd ← lookupContent entries gf
                      let st := { p.1 with geometry := setAssoc p.1.geometry floorId gd }
                      let ls ← process_geometry st floorId gd
                      pure (st, p.2 ++ ls))
                    name (fun s => ⟨msg, by simp [hbad, bind, Except.bind]⟩)
                    (geometryFileNames (entries.map (fun e => e.name))) (st3, []) hm
                  have h4' : stepGeometry entries st3 = .error e := h4
                  simp [parse_mvf_zip, bind, Except.bind, h1, h2, h3, h4', Except.isOk, Except.toBool]
    · -- locations
      cases hl : locationsFileName (entries.map (fun e => e.name)) with
      | none => rw [hl] at hm; simp at hm
      | some lf =>
          rw [hl] at hm
          simp only [List.mem_singleton] at hm
          subst hm
          cases h1 : stepManifest entries {} with
          | error e => simp [parse_mvf_zip, bind, Except.bind, h1, Except.isOk, Except.toBool]
          | ok st1 =>
              cases h2 : stepFloors entries st1 with
              | error e => simp [parse_mvf_zip, bind, Except.bind, h1, h2, Except.isOk, Except.toBool]
              | ok p2 =>
                  obtain ⟨st2, fl⟩ := p2
                  cases h3 : stepKinds entries st2 with
                  | error e => simp [parse_mvf_zip, bind, Except.bind, h1, h2, h3, Except.isOk, Except.toBool]
                  | ok st3 =>
                      cases h4 : stepGeometry entries st3 with
                      | error e =>
                          simp [parse_mvf_zip, bind, Except.bind, h1, h2, h3, h4, Except.isOk, Except.toBool]
                      | ok p4 =>
                          obtain ⟨st4, gl⟩ := p4
                          have h5 : stepLocations entries st4 = .error msg := by
                            simp [stepLocations, hl, hbad, bind, Except.bind]
                          simp [parse_mvf_zip, bind, Except.bind, h1, h2, h3, h4, h5, Except.isOk, Except.toBool]
  · rfl


/-- Witness for C1 (amended): a concrete package whose kinds document is
malformed fails to parse as a whole. -/
theorem C1_witness : (parse_mvf_zip c1entsKindsBad).isOk = false := by
  exact C1_core_doc_parse_failure_fatal.1 c1entsKindsBad "kinds/f1.json" "Expecting value"
    (by decide) rfl

/-- Witness for C10: applying the general statement to the concrete
two-anchor location with one dangling anchor. -/
theorem C10_witness :
    jLookup c10fd.attributes "anchor_count" = some (.str "2") := by
  exact C10_anchor_count_counts_all_anchors.1 c10st c10loc
    [.obj [("geometryId", .str "ga"), ("floorId", .str "fa")],
     .obj [("geometryId", .str "missing"), ("floorId", .str "fa")]]
    [c10fd] rfl rfl c10fd (by simp)

/-! ## Claim C3 -/

/-- The layer list built from the buckets is a canonical floor block. -/
theorem mkGeometryLayers_block (fn fid : String) (b : Buckets) :
    GeomBlock fid (mkGeometryLayers fn fid b) := by
  constructor
  · simp only [mkGeometryLayers, List.map_append, geomRoleList]
    show List.Sublist (_ ++ _ ++ _ ++ _ ++ _ ++ _)
      ([some LayerRole.doorsR] ++ [some LayerRole.windowsR] ++ [some LayerRole.wallsR] ++
       [some LayerRole.spacesR] ++ [some LayerRole.lineDoorsR] ++ [some LayerRole.connectionsR])
    refine List.Sublist.append (List.Sublist.append (List.Sublist.append
      (List.Sublist.append (List.Sublist.append ?_ ?_) ?_) ?_) ?_) ?_ <;>
      split <;> simp [roleOf, mkDoorsLayer, mkWindowsLayer, mkWallsLayer, mkSpacesLayer,
        mkLineDoorsLayer, mkConnectionsLayer, geometryFields, locationFields]
  · intro L hL
    rcases mem_mkGeometryLayers L fn fid b hL with
      ⟨hne, rfl⟩ | ⟨hne, rfl⟩ | ⟨hne, rfl⟩ | ⟨hne, rfl⟩ | ⟨hne, rfl⟩ | ⟨hne, rfl⟩ <;>
      exact ⟨rfl, hne⟩


/-- A successful _process_geometry run emits a canonical floor block. -/
theorem process_geometry_block (st : ParserState) (fid : String) (doc : JValue)
    (ls : List Layer) (h : process_geometry st fid doc = .ok ls) : GeomBlock fid ls := by
  rcases process_geometry_ok_inv st fid doc ls h with rfl | ⟨_, _, bks, fnv, _, _, _, rfl⟩
  · exact ⟨List.nil_sublist _, by simp⟩
  · exact mkGeometryLayers_block _ fid bks


/-- Floor-boundary layers carry no floor key. -/
theorem process_floors_floorKey (st : ParserState) (ls : List Layer)
    (h : process_floors st = .ok ls) : ∀ L ∈ ls, L.floorKey = none := by
  intro L hL
  unfold process_floors at h
  simp only [] at h
  split at h
  · simp only [pure, Except.pure, Except.ok.injEq] at h
    subst h
    simp at hL
  · obtain ⟨hasF, e1, h⟩ := bindOk h
    cases hasF with
    | false =>
        simp only [Bool.not_false, if_true, pure, Except.pure, Except.ok.injEq] at h
        subst h
        simp at hL
    | true =>
        simp only [Bool.not_true, if_false] at h
        obtain ⟨fv, e2, h⟩ := bindOk h
        split at h
        · simp only [pure, Except.pure, Except.ok.injEq] at h
          subst h
          simp at hL
        · obtain ⟨feats, e3, h⟩ := bindOk h
          obtain ⟨features, e4, h⟩ := bindOk h
          split at h <;>
            simp only [pure, Except.pure, Except.ok.injEq] at h <;> subst h
          · simp at hL
          · simp only [List.mem_singleton] at hL
            subst hL
            rfl


/-- Extension layers carry no floor key. -/
theorem process_extension_file_floorKey (st : ParserState) (fn : String)
    (content : Except String JValue) :
    ∀ L ∈ process_extension_file st fn content, L.floorKey = none := by
  intro L hL
  unfold process_extension_file at hL
  cases he : process_extension_fileE st fn content with
  | error e => rw [he] at hL; simp at hL
  | ok ls =>
      rw [he] at hL
      simp only at hL
      unfold process_extension_fileE at he
      obtain ⟨data, e1, he⟩ := bindOk he
      obtain ⟨hasF, e2, he⟩ := bindOk he
      cases hasF with
      | false =>
          simp only [Bool.not_false, if_true, pure, Except.pure, Except.ok.injEq] at he
          subst he
          simp at hL
      | true =>
          simp only [Bool.not_true, if_false] at he
          obtain ⟨fv, e3, he⟩ := bindOk he
          obtain ⟨feats, e4, he⟩ := bindOk he
          obtain ⟨features, e5, he⟩ := bindOk he
          split at he <;>
            simp only [pure, Except.pure, Except.ok.injEq] at he <;> subst he
          · simp at hL
          · simp only [List.mem_singleton] at hL
            subst hL
            rfl


/-- All layers the extension step emits carry no floor key. -/
theorem stepExtensions_floorKey (entries : List ZipEntry) (st : ParserState) :
    ∀ L ∈ stepExtensions entries st, L.floorKey = none := by
  unfold stepExtensions
  generalize (entries.map (fun e => e.name)) = names
  have main : ∀ (ns : List String) (acc : List Layer), (∀ L ∈ acc, L.floorKey = none) →
      ∀ L ∈ ns.foldl (fun acc ef =>
        if isExtensionName ef then acc ++ process_extension_file st ef (lookupContent entries ef)
        else acc) acc, L.floorKey = none := by
    intro ns
    induction ns with
    | nil => intro acc hacc L hL; exact hacc L hL
    | cons a t ih =>
        intro acc hacc L hL
        simp only [List.foldl] at hL
        refine ih _ ?_ L hL
        intro M hM
        split at hM
        · rcases List.mem_append.mp hM with hM | hM
          · exact hacc M hM
          · exact process_extension_file_floorKey st a _ M hM
        · exact hacc M hM
  exact main names [] (by simp)


/-- Inserting a feature preserves grouping well-formedness. -/
theorem groupInsert_wf (gs : List (JValue × List FeatureData)) (k : JValue)
    (fd : FeatureData) (h : GroupsWF gs) : GroupsWF (groupInsert gs k fd) := by
  unfold groupInsert
  split
  · constructor
    · intro kv hkv
      obtain ⟨kv0, hkv0, rfl⟩ := List.mem_map.mp hkv
      split
      · simp
      · exact h.1 kv0 hkv0
    · refine List.Pairwise.map _ ?_ h.2
      intro a b hab
      have ha : (if pyEq a.1 k then (a.1, a.2 ++ [fd]) else a).1 = a.1 := by
        split <;> rfl
      have hb : (if pyEq b.1 k then (b.1, b.2 ++ [fd]) else b).1 = b.1 := by
        split <;> rfl
      rw [ha, hb]
      exact hab
  · rename_i hnone
    constructor
    · intro kv hkv
      rcases List.mem_append.mp hkv with hkv | hkv
      · exact h.1 kv hkv
      · simp only [List.mem_singleton] at hkv
        subst hkv
        simp
    · rw [List.pairwise_append]
      refine ⟨h.2, by simp, ?_⟩
      intro a ha b hb
      simp only [List.mem_singleton] at hb
      subst hb
      have hfalse : gs.any (fun kv => pyEq kv.1 k) = false := by
        simpa using hnone
      have := List.any_eq_false.mp hfalse a ha
      simpa using this


/-- The feature-grouping fold produces a well-formed grouping. -/
theorem groups_fold_wf (features : List FeatureData) :
    ∀ gs0, GroupsWF gs0 →
      GroupsWF (features.foldl (fun acc fd => groupInsert acc (floorIdAttr fd) fd) gs0) := by
  induction features with
  | nil => intro gs0 h; exact h
  | cons fd t ih =>
      intro gs0 h
      exact ih _ (groupInsert_wf gs0 (floorIdAttr fd) fd h)


/-- Pointwise correspondence extracted from a successful mapM. -/
theorem mapM_forall2 {α β : Type} (f : α → Except String β) :
    ∀ (l : List α) (r : List β), l.mapM f = .ok r →
      List.Forall₂ (fun a b => f a = .ok b) l r := by
  intro l
  induction l with
  | nil =>
      intro r h
      simp only [List.mapM_nil, pure, Except.pure, Except.ok.injEq] at h
      subst h
      exact List.Forall₂.nil
  | cons a t ih =>
      intro r h
      rw [List.mapM_cons] at h
      obtain ⟨b, e1, h⟩ := bindOk h
      obtain ⟨bs, e2, h⟩ := bindOk h
      simp only [pure, Except.pure, Except.ok.injEq] at h
      subst h
      exact List.Forall₂.cons e1 (ih bs e2)


/-- Right membership of a Forall₂ comes from a related left element. -/
theorem forall2_mem_right {α β : Type} {R : α → β → Prop} :
    ∀ {l : List α} {r : List β}, List.Forall₂ R l r → ∀ b ∈ r, ∃ a ∈ l, R a b := by
  intro l r h
  induction h with
  | nil => intro b hb; simp at hb
  | cons hab _ ih =>
      intro b hb
      rcases List.mem_cons.mp hb with rfl | hb
      · exact ⟨_, List.mem_cons_self _ _, hab⟩
      · obtain ⟨a, ha, hr⟩ := ih b hb
        exact ⟨a, List.mem_cons_of_mem _ ha, hr⟩


/-- Pairwise relations transfer along a Forall₂. -/
theorem forall2_pairwise {α β : Type} {R : α → β → Prop} {S : α → α → Prop}
    {T : β → β → Prop}
    (hT : ∀ a b a2 b2, R a b → R a2 b2 → S a a2 → T b b2) :
    ∀ {l : List α} {r : List β}, List.Forall₂ R l r → l.Pairwise S → r.Pairwise T := by
  intro l r h
  induction h with
  | nil => intro _; exact List.Pairwise.nil
  | cons hab hrest ih =>
      intro hp
      rcases List.pairwise_cons.mp hp with ⟨hhead, htail⟩
      refine List.Pairwise.cons ?_ (ih htail)
      intro b hb
      obtain ⟨a2, ha2, hr2⟩ := forall2_mem_right hrest b hb
      exact hT _ _ _ _ hab hr2 (hhead a2 ha2)


/-- A list pairwise-excluding two p-elements has at most one p-element. -/
theorem filter_length_le_one {α : Type} (p : α → Bool) :
    ∀ (l : List α), l.Pairwise (fun a b => ¬(p a = true ∧ p b = true)) →
      (l.filter p).length ≤ 1 := by
  intro l
  induction l with
  | nil => intro _; simp
  | cons a t ih =>
      intro hp
      rcases List.pairwise_cons.mp hp with ⟨hhead, htail⟩
      by_cases hpa : p a = true
      · have hnil : t.filter p = [] := by
          rw [List.filter_eq_nil_iff]
          intro b hb hpb
          exact hhead b hb ⟨hpa, hpb⟩
        simp [List.filter_cons, hpa, hnil]
      · simp only [List.filter_cons, hpa, if_false]
        exact ih htail


/-- Tail of _process_locations from the assembled location list onward:
every produced layer is a non-empty Locations layer and no two layers
share a string floor key. -/
theorem process_locations_tail (st : ParserState) (ll : List JValue) (ls : List Layer)
    (h : (if ll.isEmpty = true then pure []
          else do
            let features ← List.foldlM (fun acc loc => do
                let fds ← process_one_location st loc
                pure (acc ++ fds)) [] ll
            if features.isEmpty = true then pure []
            else
              (List.foldl (fun acc fd => groupInsert acc (floorIdAttr fd) fd) [] features).mapM
                (fun kv => do
                  let floorNameV ← get_floor_name st kv.1
                  pure ({ name := pyStrOf floorNameV ++ " - Locations", ltype := "point",
                          features := kv.2, fields := locationFields,
                          floorKey := jstrKey kv.1 } : Layer)) :
          Except String (List Layer)) = .ok ls) :
    (∀ L ∈ ls, roleOf L = some .locationsR ∧ L.features ≠ []) ∧
    ∀ fid : String, (ls.filter (fun L => L.floorKey = some fid)).length ≤ 1 := by
  split at h
  · simp only [pure, Except.pure, Except.ok.injEq] at h
    subst h
    exact ⟨by simp, by simp⟩
  · obtain ⟨features, e3, h⟩ := bindOk h
    split at h
    · simp only [pure, Except.pure, Except.ok.injEq] at h
      subst h
      exact ⟨by simp, by simp⟩
    · have hwf : GroupsWF (features.foldl
          (fun acc fd => groupInsert acc (floorIdAttr fd) fd) []) :=
        groups_fold_wf features [] ⟨by simp, List.Pairwise.nil⟩
      have hf2 := mapM_forall2 _ _ _ h
      have hrel : ∀ (kv : JValue × List FeatureData) (L : Layer),
          (do
            let floorNameV ← get_floor_name st kv.1
            pure ({ name := pyStrOf floorNameV ++ " - Locations", ltype := "point",
                    features := kv.2, fields := locationFields,
                    floorKey := jstrKey kv.1 } : Layer)) = Except.ok L →
          L.ltype = "point" ∧ L.style_type = none ∧ L.fields = locationFields ∧
          L.features = kv.2 ∧ L.floorKey = jstrKey kv.1 := by
        intro kv L hkv
        obtain ⟨fnv, ee, hkv⟩ := bindOk hkv
        simp only [pure, Except.pure, Except.ok.injEq] at hkv
        subst hkv
        exact ⟨rfl, rfl, rfl, rfl, rfl⟩
      constructor
      · intro L hL
        obtain ⟨kv, hkv, hr⟩ := forall2_mem_right hf2 L hL
        obtain ⟨hlt, hst, hfi, hfe, hfk⟩ := hrel kv L hr
        constructor
        · simp [roleOf, hlt, hst, hfi, locationFields, geometryFields]
        · rw [hfe]
          exact hwf.1 kv hkv
      · intro fid
        have hpw : ls.Pairwise (fun L1 L2 =>
            ¬((decide (L1.floorKey = some fid)) = true ∧
              (decide (L2.floorKey = some fid)) = true)) := by
          refine forall2_pairwise ?_ hf2 hwf.2
          intro a b a2 b2 hab hab2 hS
          obtain ⟨_, _, _, _, hfk1⟩ := hrel a b hab
          obtain ⟨_, _, _, _, hfk2⟩ := hrel a2 b2 hab2
          intro ⟨hb1, hb2⟩
          rw [decide_eq_true_iff] at hb1 hb2
          rw [hfk1] at hb1
          rw [hfk2] at hb2
          have ha1 : a.1 = .str fid := by
            cases ha : a.1 <;> simp only [ha, jstrKey, Option.some.injEq, reduceCtorEq] at hb1
            simp [ha, hb1]
          have ha2 : a2.1 = .str fid := by
            cases ha : a2.1 <;> simp only [ha, jstrKey, Option.some.injEq, reduceCtorEq] at hb2
            simp [ha, hb2]
          rw [ha1, ha2] at hS
          simp [pyEq] at hS
        exact filter_length_le_one _ ls hpw


/-- Layers of a successful _process_locations run: every layer is a
non-empty Locations layer and no two layers share a string floor key. -/
theorem process_locations_layers (st : ParserState) (ls : List Layer)
    (h : process_locations st = .ok ls) :
    (∀ L ∈ ls, roleOf L = some .locationsR ∧ L.features ≠ []) ∧
    ∀ fid : String, (ls.filter (fun L => L.floorKey = some fid)).length ≤ 1 := by
  unfold process_locations at h
  simp only [] at h
  split at h
  · simp only [pure, Except.pure, Except.ok.injEq] at h
    subst h
    exact ⟨by simp, by simp⟩
  · obtain ⟨hasF, e1, h⟩ := bindOk h
    split at h
    · obtain ⟨fv, e2, h⟩ := bindOk h
      obtain ⟨fl, e3, h⟩ := bindOk h
      obtain ⟨y, e4, h⟩ := bindOk h
      exact process_locations_tail st y ls h
    · split at h
      · obtain ⟨y, e4, h⟩ := bindOk h
        exact process_locations_tail st y ls h
      · obtain ⟨y, e4, h⟩ := bindOk h
        exact process_locations_tail st y ls h


/-- Step 2 emits only layers without a floor key. -/
theorem stepFloors_floorKey (entries : List ZipEntry) (st st2 : ParserState)
    (fl : List Layer) (h : stepFloors entries st = .ok (st2, fl)) :
    ∀ L ∈ fl, L.floorKey = none := by
  unfold stepFloors at h
  split at h
  · obtain ⟨c, e1, h⟩ := bindOk h
    obtain ⟨ls, e2, h⟩ := bindOk h
    simp only [pure, Except.pure, Except.ok.injEq, Prod.mk.injEq] at h
    obtain ⟨-, rfl⟩ := h
    exact process_floors_floorKey _ ls e2
  · simp only [pure, Except.pure, Except.ok.injEq, Prod.mk.injEq] at h
    obtain ⟨-, rfl⟩ := h
    simp


/-- Step 5 emits only non-empty Locations layers with pairwise distinct
string floor keys. -/
theorem stepLocations_layers (entries : List ZipEntry) (st st5 : ParserState)
    (ll : List Layer) (h : stepLocations entries st = .ok (st5, ll)) :
    (∀ L ∈ ll, roleOf L = some .locationsR ∧ L.features ≠ []) ∧
    ∀ fid : String, (ll.filter (fun L => L.floorKey = some fid)).length ≤ 1 := by
  unfold stepLocations at h
  split at h
  · simp only [pure, Except.pure, Except.ok.injEq, Prod.mk.injEq] at h
    obtain ⟨-, rfl⟩ := h
    exact ⟨by simp, by simp⟩
  · obtain ⟨ld, e1, h⟩ := bindOk h
    obtain ⟨ls, e2, h⟩ := bindOk h
    simp only [pure, Except.pure, Except.ok.injEq, Prod.mk.injEq] at h
    obtain ⟨-, rfl⟩ := h
    exact process_locations_layers _ ls e2


/-- The geometry fold produces one canonical floor block per geometry
document, in archive order. -/
theorem stepGeometry_fold_blocks (entries : List ZipEntry) :
    ∀ (l : List String) (st0 : ParserState) (acc0 : List Layer)
      (st' : ParserState) (ls : List Layer),
      l.foldlM (fun (p : ParserState × List Layer) gf => do
        let floorId := extract_floor_id_from_filename gf
        let gd ← lookupContent entries gf
        let st := { p.1 with geometry := setAssoc p.1.geometry floorId gd }
        let ls ← process_geometry st floorId gd
        pure (st, p.2 ++ ls)) (st0, acc0) = .ok (st', ls) →
      ∃ blocks : List (String × List Layer),
        ls = acc0 ++ (blocks.map (fun b => b.2)).flatten ∧
        blocks.map (fun b => b.1) = l.map extract_floor_id_from_filename ∧
        ∀ b ∈ blocks, GeomBlock b.1 b.2 := by
  intro l
  induction l with
  | nil =>
      intro st0 acc0 st' ls h
      simp only [List.foldlM, pure, Except.pure, Except.ok.injEq, Prod.mk.injEq] at h
      obtain ⟨-, rfl⟩ := h
      exact ⟨[], by simp, by simp, by simp⟩
  | cons gf t ih =>
      intro st0 acc0 st' ls h
      simp only [List.foldlM] at h
      obtain ⟨p1, e1, h⟩ := bindOk h
      obtain ⟨gd, eg, e1⟩ := bindOk e1
      obtain ⟨ls1, ep, e1⟩ := bindOk e1
      simp only [pure, Except.pure, Except.ok.injEq] at e1
      subst e1
      obtain ⟨blocks, hls, hfst, hblk⟩ := ih _ _ _ _ h
      refine ⟨(extract_floor_id_from_filename gf, ls1) :: blocks, ?_, ?_, ?_⟩
      · simp only [List.map_cons, List.flatten_cons, hls, List.append_assoc]
      · simp [hfst]
      · intro b hb
        rcases List.mem_cons.mp hb with rfl | hb
        · exact process_geometry_block _ _ _ _ ep
        · exact hblk b hb


/-- Step 4 emits the concatenation of the per-document floor blocks. -/
theorem stepGeometry_blocks (entries : List ZipEntry) (st st4 : ParserState)
    (gl : List Layer) (h : stepGeometry entries st = .ok (st4, gl)) :
    ∃ blocks : List (String × List Layer),
      gl = (blocks.map (fun b => b.2)).flatten ∧
      blocks.map (fun b => b.1) =
        (geometryFileNames (entries.map (fun e => e.name))).map
          extract_floor_id_from_filename ∧
      ∀ b ∈ blocks, GeomBlock b.1 b.2 := by
  unfold stepGeometry at h
  obtain ⟨blocks, hls, hfst, hblk⟩ := stepGeometry_fold_blocks entries _ st [] st4 gl h
  exact ⟨blocks, by simpa using hls, hfst, hblk⟩


/-- Filtering a floor block by its own floor keeps it whole. -/
theorem block_filter_self (fid : String) (bl : List Layer)
    (hb : ∀ L ∈ bl, L.floorKey = some fid) :
    bl.filter (fun L => L.floorKey = some fid) = bl := by
  rw [List.filter_eq_self]
  intro L hL
  simp [hb L hL]


/-- Filtering layers tagged with other floors yields nothing. -/
theorem blocks_filter_nil (fid : String) (blocks : List (String × List Layer))
    (hne : ∀ b ∈ blocks, b.1 ≠ fid)
    (hkey : ∀ b ∈ blocks, ∀ L ∈ b.2, L.floorKey = some b.1) :
    ((blocks.map (fun b => b.2)).flatten).filter (fun L => L.floorKey = some fid) = [] := by
  rw [List.filter_eq_nil_iff]
  intro L hL
  obtain ⟨bl, hbl, hLbl⟩ := List.mem_flatten.mp hL
  obtain ⟨b, hb, rfl⟩ := List.mem_map.mp hbl
  have := hkey b hb L hLbl
  simp [this, hne b hb]


/-- The per-floor filter of the concatenated floor blocks keeps the
canonical role order. -/
theorem blocks_filter_roles (fid : String) :
    ∀ (blocks : List (String × List Layer)),
      (blocks.map (fun b => b.1)).Nodup →
      (∀ b ∈ blocks, GeomBlock b.1 b.2) →
      ((((blocks.map (fun b => b.2)).flatten).filter
          (fun L => L.floorKey = some fid)).map roleOf).Sublist
        (geomRoleList.map some) := by
  intro blocks
  induction blocks with
  | nil => intro _ _; simp
  | cons b bs ih =>
      intro hnd hblk
      simp only [List.map_cons, List.flatten_cons, List.filter_append]
      rcases List.nodup_cons.mp hnd with ⟨hbn, hnd'⟩
      by_cases hfid : b.1 = fid
      · have hself : b.2.filter (fun L => L.floorKey = some fid) = b.2 := by
          refine block_filter_self fid b.2 ?_
          intro L hL
          rw [← hfid]
          exact ((hblk b (List.mem_cons_self b bs)).2 L hL).1
        have hnil : ((bs.map (fun b => b.2)).flatten).filter
            (fun L => L.floorKey = some fid) = [] := by
          refine blocks_filter_nil fid bs ?_ ?_
          · intro b2 hb2 hcon
            exact hbn (List.mem_map.mpr ⟨b2, hb2, hcon.trans hfid.symm⟩)
          · intro b2 hb2 L hL
            exact ((hblk b2 (List.mem_cons_of_mem b hb2)).2 L hL).1
        rw [hself, hnil, List.append_nil]
        exact (hblk b (List.mem_cons_self b bs)).1
      · have hnil : b.2.filter (fun L => L.floorKey = some fid) = [] := by
          rw [List.filter_eq_nil_iff]
          intro L hL
          have := ((hblk b (List.mem_cons_self b bs)).2 L hL).1
          simp [this, hfid]
        rw [hnil, List.nil_append]
        exact ih hnd' (fun b2 hb2 => hblk b2 (List.mem_cons_of_mem b hb2))


/-- A list of length at most one is empty or a singleton. -/
theorem length_le_one_cases {α : Type} (l : List α) (h : l.length ≤ 1) :
    l = [] ∨ ∃ x, l = [x] := by
  cases l with
  | nil => exact Or.inl rfl
  | cons a t =>
      cases t with
      | nil => exact Or.inr ⟨a, rfl⟩
      | cons b u => simp at h


/-- C3: in the layer sequence of a successful package parse (with distinct
per-document floor ids), the layers emitted for any single floor appear in
the order Doors, Windows, Walls, Spaces, line-doors Doors, Connections and
then that floor's Locations layer, each at most once; and every
floor-tagged layer in the sequence is non-empty. -/
theorem C3_per_floor_layer_order (entries : List ZipEntry) (layers : List Layer)
    (fid : String)
    (h : parse_mvf_zip entries = .ok layers)
    (hnd : ((geometryFileNames (entries.map (fun e => e.name))).map
      extract_floor_id_from_filename).Nodup) :
    (((layers.filter (fun L => L.floorKey = some fid)).map roleOf).Sublist
      ((geomRoleList ++ [LayerRole.locationsR]).map some)) ∧
    ∀ L ∈ layers, L.floorKey ≠ none → L.features ≠ [] := by
  unfold parse_mvf_zip at h
  obtain ⟨st1, e1, h⟩ := bindOk h
  obtain ⟨p2, e2, h⟩ := bindOk h
  obtain ⟨st2, fl⟩ := p2
  simp only [] at h
  obtain ⟨st3, e3, h⟩ := bindOk h
  obtain ⟨p4, e4, h⟩ := bindOk h
  obtain ⟨st4, gl⟩ := p4
  simp only [] at h
  obtain ⟨p5, e5, h⟩ := bindOk h
  obtain ⟨st5, ll⟩ := p5
  simp only [pure, Except.pure, Except.ok.injEq] at h
  subst h
  have hfl := stepFloors_floorKey entries st1 st2 fl e2
  have hll := stepLocations_layers entries st4 st5 ll e5
  have hext := stepExtensions_floorKey entries st5
  obtain ⟨blocks, rfl, hfst, hblk⟩ := stepGeometry_blocks entries st3 st4 gl e4
  constructor
  · simp only [List.filter_append]
    have hflnil : fl.filter (fun L => L.floorKey = some fid) = [] := by
      rw [List.filter_eq_nil_iff]
      intro L hL
      simp [hfl L hL]
    have hextnil : (stepExtensions entries st5).filter
        (fun L => L.floorKey = some fid) = [] := by
      rw [List.filter_eq_nil_iff]
      intro L hL
      simp [hext L hL]
    rw [hflnil, hextnil, List.nil_append, List.append_nil]
    rw [List.map_append, List.map_append]
    have hgeom := blocks_filter_roles fid blocks (by rw [hfst]; exact hnd) hblk
    have hloc : ((ll.filter (fun L => L.floorKey = some fid)).map roleOf).Sublist
        [some LayerRole.locationsR] := by
      rcases length_le_one_cases _ (hll.2 fid) with hc | ⟨L, hc⟩
      · rw [hc]; simp
      · rw [hc]
        have hLmem : L ∈ ll := List.mem_of_mem_filter (by rw [hc]; simp)
        have := (hll.1 L hLmem).1
        simp [this]
    exact List.Sublist.append hgeom hloc
  · intro L hL hfk
    rcases List.mem_append.mp hL with hL | hL
    · rcases List.mem_append.mp hL with hL | hL
      · rcases List.mem_append.mp hL with hL | hL
        · exact absurd (hfl L hL) hfk
        · obtain ⟨bl, hbl, hLbl⟩ := List.mem_flatten.mp hL
          obtain ⟨b, hb, rfl⟩ := List.mem_map.mp hbl
          exact ((hblk b hb).2 L hLbl).2
      · exact (hll.1 L hL).2
    · exact absurd (hext L hL) hfk


/-- Witness for C3: in the concrete package, the floor fa layers appear in
canonical role order and its Locations layer is non-empty. -/
theorem C3_witness :
    (((w3layers.filter (fun L => L.floorKey = some "fa")).map roleOf).Sublist
      ((geomRoleList ++ [LayerRole.locationsR]).map some)) ∧
    c8layerA.features ≠ [] := by
  have h := C3_per_floor_layer_order w3ents w3layers "fa" rfl (by decide)
  exact ⟨h.1, h.2 c8layerA (by simp [w3layers]) (by simp [c8layerA])⟩

end MVF
